import Mathlib

/-!
Shallow embedding of the vyos-api configuration-translation layer.

The repository is a REST-to-tree gateway: each HTTP handler translates a
resource operation into a sequence of get/set/delete calls against a remote
VyOS configuration store and normalizes the loosely-typed tree the store
returns.  This file embeds:

- the remote store's untyped tree value (TreeNode) and the JSON values the
  gateway emits (JVal), including the semantics of Go's encoding/json for
  struct tags (omitempty) and map serialization (keys sorted by byte order);
- the path builder (pathToArr, from the vyos client package), which splits a
  whitespace-joined path string into segments with strings.Fields;
- the tree normalizers (toStringSlice, parseNATRuleData, parsePolicyData,
  parseAddressGroupData, parseRouteData, parseDHCPServerData);
- every HTTP handler of the handlers package, as a pure function from the
  parsed request plus a script of remote-call results to an HTTP outcome and
  the ordered list of remote calls issued.  The script plays the role of the
  sequenced mock VyOS server used by the repository's own tests: each remote
  call consumes the next scripted result, and an exhausted script yields a
  generic success envelope.

Go maps are represented as association lists in a fixed order; Go iterates
maps in unspecified order, so any property proved below is independent of
that choice except where a handler deliberately takes the first entry, which
the embedding mirrors by taking the list head.
-/

/-- A value decoded from the remote store's JSON: a scalar string, a JSON
number or boolean, an array, an object (Go map[string]interface, represented
as an association list), or null. -/
inductive TreeNode where
  | str : String → TreeNode
  | num : Int → TreeNode
  | bool : Bool → TreeNode
  | arr : List TreeNode → TreeNode
  | obj : List (String × TreeNode) → TreeNode
  | null : TreeNode

/-- Association-list lookup, mirroring Go map indexing (first binding wins). -/
def getKey (k : String) : List (String × TreeNode) → Option TreeNode
  | [] => none
  | (k1, v) :: rest => if k1 = k then some v else getKey k rest

/-- Go type assertion data.(map[string]interface): the entries when the node
is an object, the nil map (empty) otherwise. -/
def asObj : TreeNode → List (String × TreeNode)
  | .obj kvs => kvs
  | _ => []

/-- Go type assertion v.(string) with the comma-ok idiom defaulting to the
empty string. -/
def asStr : Option TreeNode → String
  | some (.str s) => s
  | _ => ""

/-- Presence test for a key, mirroring the Go two-result map index used for
presence flags. -/
def hasKey (k : String) (kvs : List (String × TreeNode)) : Bool :=
  (getKey k kvs).isSome

/-- A JSON value produced by the gateway in a response body. -/
inductive JVal where
  | s : String → JVal
  | n : Int → JVal
  | b : Bool → JVal
  | arr : List JVal → JVal
  | obj : List (String × JVal) → JVal
  | null : JVal

/-- Lookup of a key in a rendered JSON object; none when the key is absent or
the value is not an object. -/
def objLookup (k : String) : JVal → Option JVal
  | .obj kvs => kvs.lookup k
  | _ => none

/-- Mandatory string field of a Go struct (no omitempty tag). -/
def strField (k v : String) : List (String × JVal) := [(k, .s v)]

/-- String field tagged omitempty: dropped when the string is empty. -/
def strFieldOpt (k v : String) : List (String × JVal) :=
  if v = "" then [] else [(k, .s v)]

/-- Bool field tagged omitempty: dropped when false. -/
def boolFieldOpt (k : String) (v : Bool) : List (String × JVal) :=
  if v then [(k, .b true)] else []

/-- String-slice field tagged omitempty: dropped when nil or empty. -/
def strListFieldOpt (k : String) (l : List String) : List (String × JVal) :=
  if l.isEmpty then [] else [(k, .arr (l.map .s))]

/-- Byte-order comparison of character sequences, mirroring the Go string
order used by encoding/json for map keys (for the ASCII keys this gateway
produces, code points coincide with bytes). -/
def charsLe : List Char → List Char → Bool
  | [], _ => true
  | _ :: _, [] => false
  | a :: as, b :: bs =>
    if a.toNat < b.toNat then true
    else if b.toNat < a.toNat then false
    else charsLe as bs

/-- Go string order on strings. -/
def goStrLe (a b : String) : Bool := charsLe a.data b.data

/-- Key order on rendered object entries. -/
def pairLe (p q : String × JVal) : Prop := goStrLe p.1 q.1 = true

instance : DecidableRel pairLe := fun p q => by unfold pairLe; infer_instance

/-- Go encoding/json serializes a map with its keys in ascending byte
order. -/
def sortPairs (l : List (String × JVal)) : List (String × JVal) :=
  l.insertionSort pairLe

/-- Substring test mirroring Go strings.Contains. -/
def charsContain (h n : List Char) : Bool :=
  if n.isPrefixOf h then true
  else
    match h with
    | [] => false
    | _ :: t => charsContain t n

/-- Go strings.Contains on strings. -/
def strContainsGo (hay needle : String) : Bool :=
  charsContain hay.data needle.data

/-- Accumulator pass of strings.Fields: split on whitespace, dropping empty
fields. -/
def fieldsAux : List Char → List Char → List String
  | [], acc => if acc.isEmpty then [] else [String.mk acc.reverse]
  | c :: cs, acc =>
    if c.isWhitespace then
      if acc.isEmpty then fieldsAux cs []
      else String.mk acc.reverse :: fieldsAux cs []
    else fieldsAux cs (c :: acc)

/-- Go strings.Fields. -/
def goFields (s : String) : List String := fieldsAux s.data []

/-- pathToArr from the vyos client package: converts a space-separated path
to the segment array sent to the VyOS API (nil for the empty string). -/
def pathToArr (path : String) : List String :=
  if path = "" then [] else goFields path

/-- The VyOS API response envelope: success flag, data tree, error payload
(a string or null in practice). -/
structure Resp where
  success : Bool
  data : TreeNode
  err : Option String

/-- Result of one remote call: a transport error carrying the Go error
message, or a decoded response envelope. -/
abbrev CallRes := Except String Resp

/-- errMsg from the handlers package: fmt.Sprint of the untyped error field;
Go prints a nil interface as the bracketed nil marker. -/
def errMsg : Option String → String
  | some s => s
  | none => "<nil>"

/-- Discriminator of the three remote operations. -/
inductive COp where
  | get
  | set
  | del
deriving DecidableEq

/-- One remote call as issued on the wire: operation plus path segments. -/
structure Call where
  op : COp
  path : List String
deriving DecidableEq

/-- Simulation state threaded through a handler: the remaining scripted
responses and the calls issued so far, oldest first. -/
structure Sim where
  script : List CallRes
  sent : List Call

/-- The generic success envelope the test double falls back to when its
response queue is exhausted. -/
def okSuccess : CallRes := .ok ⟨true, .null, none⟩

/-- Issue one remote call: record it and consume the next scripted result. -/
def doCall (op : COp) (path : String) (σ : Sim) : CallRes × Sim :=
  let c : Call := ⟨op, pathToArr path⟩
  match σ.script with
  | [] => (okSuccess, ⟨[], σ.sent ++ [c]⟩)
  | r :: rest => (r, ⟨rest, σ.sent ++ [c]⟩)

/-- An HTTP outcome: status code and rendered JSON body (null when the
handler writes no body, as on 204). -/
structure HOut where
  status : Nat
  body : JVal

/-- writeError from the handlers package: a JSON object with one error key. -/
def errBody (message : String) : JVal := .obj [("error", .s message)]

/-- The 404 outcome getClient writes for an unregistered device. -/
def deviceNotFound (id : String) : HOut :=
  ⟨404, errBody ("device not found: " ++ id)⟩

/-- Handler dependencies: the device registry, keyed by device id (the
clients themselves are represented by the scripted Sim). -/
structure Handler where
  devices : List String

/-- getClient: device-registry lookup by the device_id path variable. -/
def getClient (h : Handler) (id : String) : Bool :=
  h.devices.contains id

/-- toStringSlice body for the list case: keep the string elements in order,
dropping non-string elements, as the Go loop over the []interface does. -/
def strsOf : List TreeNode → List String
  | [] => []
  | .str s :: rest => s :: strsOf rest
  | _ :: rest => strsOf rest

/-- toStringSlice from handlers/networks.go: normalize a config value that
may be a bare string or a JSON array into a string list, never nil. -/
def toStringSlice : Option TreeNode → List String
  | some (.str val) => [val]
  | some (.arr val) => strsOf val
  | _ => []

/-- NetworkInfo: API representation of an interface with IPv4 addresses. -/
structure NetworkInfo where
  Interface : String
  Typ : String
  Addresses : List String
  Description : String

/-- Go encoding/json rendering of NetworkInfo (description is omitempty). -/
def NetworkInfo.toJson (v : NetworkInfo) : JVal :=
  .obj (strField "interface" v.Interface ++ strField "type" v.Typ ++
    [("addresses", .arr (v.Addresses.map .s))] ++
    strFieldOpt "description" v.Description)

/-- CreateNetworkRequest: parsed JSON body of POST networks. -/
structure CreateNetworkRequest where
  Interface : String
  Typ : String
  Address : String
  Description : String

/-- UpdateNetworkRequest: parsed JSON body of PUT networks. -/
structure UpdateNetworkRequest where
  Typ : String
  Address : String
  Description : String

/-- VRFInfo: API representation of a VRF. -/
structure VRFInfo where
  Name : String
  Table : String
  Description : String

/-- Go encoding/json rendering of VRFInfo. -/
def VRFInfo.toJson (v : VRFInfo) : JVal :=
  .obj (strField "name" v.Name ++ strField "table" v.Table ++
    strFieldOpt "description" v.Description)

/-- CreateVRFRequest: parsed JSON body of POST vrfs. -/
structure CreateVRFRequest where
  Name : String
  Table : String
  Description : String

/-- UpdateVRFRequest: parsed JSON body of PUT vrfs. -/
structure UpdateVRFRequest where
  Table : String
  Description : String

/-- VLANInfo: API representation of an 802.1Q vif subinterface. -/
structure VLANInfo where
  Interface : String
  Typ : String
  VLANID : Int
  Addresses : List String
  Description : String

/-- Go encoding/json rendering of VLANInfo. -/
def VLANInfo.toJson (v : VLANInfo) : JVal :=
  .obj (strField "interface" v.Interface ++ strField "type" v.Typ ++
    [("vlan_id", .n v.VLANID), ("addresses", .arr (v.Addresses.map .s))] ++
    strFieldOpt "description" v.Description)

/-- CreateVLANRequest: parsed JSON body of POST vlans. -/
structure CreateVLANRequest where
  Interface : String
  Typ : String
  VLANID : Int
  Address : String
  Description : String

/-- UpdateVLANRequest: parsed JSON body of PUT vlans. -/
structure UpdateVLANRequest where
  Typ : String
  Address : String
  Description : String

/-- RuleInfo: API representation of a firewall rule. -/
structure RuleInfo where
  Action : String
  Source : String
  SourceGroup : String
  Destination : String
  DestinationGroup : String
  Description : String
  Disabled : Bool

/-- Go encoding/json rendering of RuleInfo (all but action omitempty). -/
def RuleInfo.toJson (v : RuleInfo) : JVal :=
  .obj (strField "action" v.Action ++ strFieldOpt "source" v.Source ++
    strFieldOpt "source_group" v.SourceGroup ++
    strFieldOpt "destination" v.Destination ++
    strFieldOpt "destination_group" v.DestinationGroup ++
    strFieldOpt "description" v.Description ++
    boolFieldOpt "disabled" v.Disabled)

/-- PolicyInfo: API representation of an IPv4 firewall policy.  Rules is a
Go map keyed by the rule identifier string, kept here in iteration order;
serialization sorts the keys (sortPairs). -/
structure PolicyInfo where
  Name : String
  DefaultAction : String
  Description : String
  Disabled : Bool
  Rules : List (String × RuleInfo)

/-- Go encoding/json rendering of PolicyInfo: rules is an omitempty map, so
an empty map is dropped and a non-empty one is serialized with its keys in
ascending byte order. -/
def PolicyInfo.toJson (v : PolicyInfo) : JVal :=
  .obj (strField "name" v.Name ++ strField "default_action" v.DefaultAction ++
    strFieldOpt "description" v.Description ++
    boolFieldOpt "disabled" v.Disabled ++
    (if v.Rules.isEmpty then []
     else [("rules", .obj (sortPairs (v.Rules.map (fun p => (p.1, p.2.toJson)))))]))

/-- CreatePolicyRequest: parsed JSON body of POST firewall policies. -/
structure CreatePolicyRequest where
  Name : String
  DefaultAction : String
  Description : String

/-- UpdatePolicyRequest: parsed JSON body of PUT firewall policies. -/
structure UpdatePolicyRequest where
  DefaultAction : String
  Description : String

/-- AddRuleRequest: parsed JSON body of POST firewall policy rules. -/
structure AddRuleRequest where
  RuleID : Int
  Action : String
  Source : String
  SourceGroup : String
  Destination : String
  DestinationGroup : String
  Description : String

/-- AddressGroupInfo: API representation of a firewall address group. -/
structure AddressGroupInfo where
  Name : String
  Addresses : List String
  Description : String

/-- Go encoding/json rendering of AddressGroupInfo.  The addresses field has
no omitempty tag; a nil Go slice would render as null, an empty non-nil one
as an empty array.  The isNil flag tracks Go slice nil-ness where a handler
echoes a request slice directly. -/
def addressGroupJson (name : String) (addresses : List String)
    (addressesNil : Bool) (description : String) : JVal :=
  .obj (strField "name" name ++
    [("addresses", if addressesNil then .null else .arr (addresses.map .s))] ++
    strFieldOpt "description" description)

/-- CreateAddressGroupRequest: parsed JSON body of POST address groups.
AddressesNil records whether the decoded Go slice is nil (addresses key
absent from the body); when true, Addresses is empty and the echoed field
serializes as null. -/
structure CreateAddressGroupRequest where
  Name : String
  Addresses : List String
  AddressesNil : Bool
  Description : String

/-- UpdateAddressGroupRequest: parsed JSON body of PUT address groups, with
the same nil-slice marker as the create request. -/
structure UpdateAddressGroupRequest where
  Addresses : List String
  AddressesNil : Bool
  Description : String

/-- NATRuleInfo: API representation of a NAT rule. -/
structure NATRuleInfo where
  RuleID : Int
  Typ : String
  Description : String
  OutboundIface : String
  InboundIface : String
  Protocol : String
  SourceAddress : String
  SourcePort : String
  DestAddress : String
  DestPort : String
  TranslationAddr : String
  TranslationPort : String
  Disabled : Bool

/-- Go encoding/json rendering of NATRuleInfo. -/
def NATRuleInfo.toJson (v : NATRuleInfo) : JVal :=
  .obj ([("rule_id", .n v.RuleID)] ++ strField "type" v.Typ ++
    strFieldOpt "description" v.Description ++
    strFieldOpt "outbound_interface" v.OutboundIface ++
    strFieldOpt "inbound_interface" v.InboundIface ++
    strFieldOpt "protocol" v.Protocol ++
    strFieldOpt "source_address" v.SourceAddress ++
    strFieldOpt "source_port" v.SourcePort ++
    strFieldOpt "destination_address" v.DestAddress ++
    strFieldOpt "destination_port" v.DestPort ++
    strFieldOpt "translation_address" v.TranslationAddr ++
    strFieldOpt "translation_port" v.TranslationPort ++
    boolFieldOpt "disabled" v.Disabled)

/-- CreateNATRuleRequest: parsed JSON body of POST NAT rules. -/
structure CreateNATRuleRequest where
  RuleID : Int
  Description : String
  OutboundIface : String
  InboundIface : String
  Protocol : String
  SourceAddress : String
  SourcePort : String
  DestAddress : String
  DestPort : String
  TranslationAddr : String
  TranslationPort : String

/-- UpdateNATRuleRequest: parsed JSON body of PUT NAT rules. -/
structure UpdateNATRuleRequest where
  Description : String
  OutboundIface : String
  InboundIface : String
  Protocol : String
  SourceAddress : String
  SourcePort : String
  DestAddress : String
  DestPort : String
  TranslationAddr : String
  TranslationPort : String

/-- RouteInfo: API representation of a static route. -/
structure RouteInfo where
  Network : String
  NextHop : String
  Distance : String
  Description : String

/-- Go encoding/json rendering of RouteInfo. -/
def RouteInfo.toJson (v : RouteInfo) : JVal :=
  .obj (strField "network" v.Network ++ strField "next_hop" v.NextHop ++
    strFieldOpt "distance" v.Distance ++ strFieldOpt "description" v.Description)

/-- CreateRouteRequest: parsed JSON body of POST routes. -/
structure CreateRouteRequest where
  Network : String
  NextHop : String
  Distance : String
  Description : String

/-- UpdateRouteRequest: parsed JSON body of PUT routes. -/
structure UpdateRouteRequest where
  NextHop : String
  Distance : String
  Description : String

/-- DHCPSubnetInfo: one subnet of a DHCP shared network.  The dns_servers
field carries the Go nil-slice distinction: it is omitempty, so nil or empty
renders as an absent key. -/
structure DHCPSubnetInfo where
  Subnet : String
  DefaultRouter : String
  DNSServers : List String
  RangeStart : String
  RangeStop : String
  Lease : String

/-- Go encoding/json rendering of DHCPSubnetInfo; every field after subnet is
omitempty, including the dns_servers list. -/
def DHCPSubnetInfo.toJson (v : DHCPSubnetInfo) : JVal :=
  .obj (strField "subnet" v.Subnet ++
    strFieldOpt "default_router" v.DefaultRouter ++
    strListFieldOpt "dns_servers" v.DNSServers ++
    strFieldOpt "range_start" v.RangeStart ++
    strFieldOpt "range_stop" v.RangeStop ++
    strFieldOpt "lease" v.Lease)

/-- DHCPServerInfo: API representation of a DHCP shared network. -/
structure DHCPServerInfo where
  Name : String
  Subnets : List DHCPSubnetInfo

/-- Go encoding/json rendering of DHCPServerInfo (subnets not omitempty). -/
def DHCPServerInfo.toJson (v : DHCPServerInfo) : JVal :=
  .obj (strField "name" v.Name ++
    [("subnets", .arr (v.Subnets.map DHCPSubnetInfo.toJson))])

/-- CreateDHCPServerRequest: parsed JSON body of POST dhcp servers. -/
structure CreateDHCPServerRequest where
  Name : String
  Subnet : String
  DefaultRouter : String
  DNSServers : List String
  RangeStart : String
  RangeStop : String
  Lease : String

/-- UpdateDHCPServerRequest: parsed JSON body of PUT dhcp servers. -/
structure UpdateDHCPServerRequest where
  Subnet : String
  DefaultRouter : String
  DNSServers : List String
  RangeStart : String
  RangeStop : String
  Lease : String

/-- Nested-map access idiom: the entries of cfg at key k when that value is
a map, the nil map otherwise (the comma-ok type assertion in Go). -/
def subMap (k : String) (cfg : List (String × TreeNode)) :
    List (String × TreeNode) :=
  match getKey k cfg with
  | some (.obj kvs) => kvs
  | _ => []

/-- parseNATRuleData from handlers/nat.go: convert raw config data into a
NATRuleInfo.  The disabled flag is the presence of the disable key. -/
def parseNATRuleData (natType : String) (ruleID : Int) (data : TreeNode) :
    NATRuleInfo :=
  let cfg := asObj data
  let src := subMap "source" cfg
  let dst := subMap "destination" cfg
  let trans := subMap "translation" cfg
  { RuleID := ruleID
    Typ := natType
    Description := asStr (getKey "description" cfg)
    OutboundIface := asStr (getKey "name" (subMap "outbound-interface" cfg))
    InboundIface := asStr (getKey "name" (subMap "inbound-interface" cfg))
    Protocol := asStr (getKey "protocol" cfg)
    SourceAddress := asStr (getKey "address" src)
    SourcePort := asStr (getKey "port" src)
    DestAddress := asStr (getKey "address" dst)
    DestPort := asStr (getKey "port" dst)
    TranslationAddr := asStr (getKey "address" trans)
    TranslationPort := asStr (getKey "port" trans)
    Disabled := hasKey "disable" cfg }

/-- Loop body of parsePolicyData over one entry of the rule map: convert one
raw rule configuration into a RuleInfo. -/
def parseRuleEntry (ruleData : TreeNode) : RuleInfo :=
  let ruleCfg := asObj ruleData
  let src := subMap "source" ruleCfg
  let dst := subMap "destination" ruleCfg
  { Action := asStr (getKey "action" ruleCfg)
    Source := asStr (getKey "address" src)
    SourceGroup := asStr (getKey "address-group" (subMap "group" src))
    Destination := asStr (getKey "address" dst)
    DestinationGroup := asStr (getKey "address-group" (subMap "group" dst))
    Description := asStr (getKey "description" ruleCfg)
    Disabled := hasKey "disable" ruleCfg }

/-- parsePolicyData from the firewall policies handler: convert raw config
data into a PolicyInfo with its keyed rule collection. -/
def parsePolicyData (name : String) (data : TreeNode) : PolicyInfo :=
  let cfg := asObj data
  let rules :=
    match getKey "rule" cfg with
    | some (.obj ruleMap) => ruleMap.map (fun p => (p.1, parseRuleEntry p.2))
    | _ => []
  { Name := name
    DefaultAction := asStr (getKey "default-action" cfg)
    Description := asStr (getKey "description" cfg)
    Disabled := hasKey "disable" cfg
    Rules := rules }

/-- hasPolicyContent from the firewall policies handler: a base chain counts
as a policy when it has a rule map or a default-action string. -/
def hasPolicyContent (cfg : List (String × TreeNode)) : Bool :=
  match getKey "rule" cfg with
  | some (.obj _) => true
  | _ =>
    match getKey "default-action" cfg with
    | some (.str _) => true
    | _ => false

/-- parseAddressGroupData from handlers/addressgroups.go.  The nil-guard in
the Go source is unreachable (toStringSlice never returns nil) and is
therefore absorbed. -/
def parseAddressGroupData (name : String) (data : TreeNode) :
    AddressGroupInfo :=
  let cfg := asObj data
  { Name := name
    Addresses := toStringSlice (getKey "address" cfg)
    Description := asStr (getKey "description" cfg) }

/-- parseRouteData from handlers/routes.go: the next-hop map contributes only
its first entry (the Go loop breaks after one iteration). -/
def parseRouteData (network : String) (data : TreeNode) : RouteInfo :=
  let cfg := asObj data
  let nh :=
    match subMap "next-hop" cfg with
    | [] => ("", "")
    | (addr, nhData) :: _ =>
      (addr, match getKey "distance" (asObj nhData) with
        | some (.str d) => d
        | _ => "")
  { Network := network
    NextHop := nh.1
    Distance := nh.2
    Description := asStr (getKey "description" cfg) }

/-- DNS-server normalization inside parseDHCPServerData: a bare string gives
a one-element slice, a list appends its string elements, anything else
leaves the slice nil (empty). -/
def dhcpDNSServers : Option TreeNode → List String
  | some (.str v) => [v]
  | some (.arr v) => strsOf v
  | _ => []

/-- parseDHCPServerData from the DHCP handler: convert raw config data into
a DHCPServerInfo, using the first range entry of each subnet. -/
def parseDHCPServerData (name : String) (data : TreeNode) : DHCPServerInfo :=
  let cfg := asObj data
  let subnets := (subMap "subnet" cfg).map (fun p =>
    let sCfg := asObj p.2
    let range :=
      match subMap "range" sCfg with
      | [] => ("", "")
      | (_, rData) :: _ =>
        (asStr (getKey "start" (asObj rData)),
         asStr (getKey "stop" (asObj rData)))
    { Subnet := p.1
      DefaultRouter := asStr (getKey "default-router" sCfg)
      DNSServers := dhcpDNSServers (getKey "name-server" sCfg)
      RangeStart := range.1
      RangeStop := range.2
      Lease := asStr (getKey "lease" sCfg) : DHCPSubnetInfo })
  { Name := name, Subnets := subnets }

/-- Digit-accumulation pass of goAtoi. -/
def digitsValAux : List Char → Nat → Option Nat
  | [], acc => some acc
  | c :: cs, acc =>
    if c.isDigit then digitsValAux cs (acc * 10 + (c.toNat - 48)) else none

/-- Value of a non-empty all-digit character sequence. -/
def digitsVal : List Char → Option Nat
  | [] => none
  | l => digitsValAux l 0

/-- strconv.Atoi: base-10 integer with an optional sign, rejecting the empty
string and any non-digit character. -/
def goAtoi (s : String) : Option Int :=
  match s.data with
  | [] => none
  | c :: rest =>
    if c = '-' then (digitsVal rest).map (fun n => -(n : Int))
    else if c = '+' then (digitsVal rest).map (fun n => (n : Int))
    else (digitsVal (c :: rest)).map (fun n => (n : Int))

/-- writeError for a transport failure: 502 with the Go error message. -/
def commError (e : String) : HOut :=
  ⟨502, errBody ("device communication error: " ++ e)⟩

/-- writeError for a remote logical rejection: 422 with the error payload. -/
def rejectedError (e : Option String) : HOut :=
  ⟨422, errBody ("device rejected operation: " ++ errMsg e)⟩

/-- Best-effort conditional set: issue the set only when the field is
non-empty and discard its result, the nolint errcheck idiom. -/
def setIfNonempty (v : String) (path : String) (σ : Sim) : Sim :=
  if v = "" then σ else (doCall .set path σ).2

/-- ListNetworks: GET networks.  Fetches the whole interfaces tree and fans
out client-side. -/
def ListNetworks (h : Handler) (deviceId : String) (σ : Sim) : HOut × Sim :=
  if getClient h deviceId then
    match doCall .get "interfaces" σ with
    | (.error e, σ1) => (commError e, σ1)
    | (.ok out, σ1) =>
      if out.success then
        let result := (asObj out.data).flatMap (fun tP =>
          (asObj tP.2).map (fun iP =>
            let cfg := asObj iP.2
            { Interface := iP.1
              Typ := tP.1
              Addresses := toStringSlice (getKey "address" cfg)
              Description := asStr (getKey "description" cfg) : NetworkInfo }))
        (⟨200, .arr (result.map NetworkInfo.toJson)⟩, σ1)
      else (rejectedError out.err, σ1)
  else (deviceNotFound deviceId, σ)

/-- CreateNetwork: POST networks.  The address set is the fatal anchor; the
description set is best-effort. -/
def CreateNetwork (h : Handler) (deviceId : String) (req : CreateNetworkRequest)
    (σ : Sim) : HOut × Sim :=
  if getClient h deviceId then
    if req.Interface = "" ∨ req.Typ = "" ∨ req.Address = "" then
      (⟨400, errBody "interface, type, and address are required"⟩, σ)
    else
      match doCall .set ("interfaces " ++ req.Typ ++ " " ++ req.Interface ++
          " address " ++ req.Address) σ with
      | (.error e, σ1) => (commError e, σ1)
      | (.ok out, σ1) =>
        if out.success then
          let σ2 := setIfNonempty req.Description ("interfaces " ++ req.Typ ++
            " " ++ req.Interface ++ " description " ++ req.Description) σ1
          (⟨201, NetworkInfo.toJson
            ⟨req.Interface, req.Typ, [req.Address], req.Description⟩⟩, σ2)
        else (rejectedError out.err, σ1)
  else (deviceNotFound deviceId, σ)

/-- GetNetwork: GET one network; the type query parameter defaults to
ethernet; a logical-false from the store renders 404. -/
def GetNetwork (h : Handler) (deviceId iface ifTypeQ : String) (σ : Sim) :
    HOut × Sim :=
  if getClient h deviceId then
    let ifType := if ifTypeQ = "" then "ethernet" else ifTypeQ
    match doCall .get ("interfaces " ++ ifType ++ " " ++ iface) σ with
    | (.error e, σ1) => (commError e, σ1)
    | (.ok out, σ1) =>
      if out.success then
        let cfg := asObj out.data
        (⟨200, NetworkInfo.toJson ⟨iface, ifType,
          toStringSlice (getKey "address" cfg),
          asStr (getKey "description" cfg)⟩⟩, σ1)
      else (⟨404, errBody "interface not found"⟩, σ1)
  else (deviceNotFound deviceId, σ)

/-- UpdateNetwork: PUT one network.  Deletes the address block (only a
transport failure of the delete is fatal), sets the new address (fatal), then
sets the description best-effort. -/
def UpdateNetwork (h : Handler) (deviceId iface : String)
    (req : UpdateNetworkRequest) (σ : Sim) : HOut × Sim :=
  if getClient h deviceId then
    if req.Typ = "" ∨ req.Address = "" then
      (⟨400, errBody "type and address are required"⟩, σ)
    else
      match doCall .del ("interfaces " ++ req.Typ ++ " " ++ iface ++
          " address") σ with
      | (.error e, σ1) => (commError e, σ1)
      | (.ok _, σ1) =>
        match doCall .set ("interfaces " ++ req.Typ ++ " " ++ iface ++
            " address " ++ req.Address) σ1 with
        | (.error e, σ2) => (commError e, σ2)
        | (.ok out, σ2) =>
          if out.success then
            let σ3 := setIfNonempty req.Description ("interfaces " ++
              req.Typ ++ " " ++ iface ++ " description " ++ req.Description) σ2
            (⟨200, NetworkInfo.toJson
              ⟨iface, req.Typ, [req.Address], req.Description⟩⟩, σ3)
          else (rejectedError out.err, σ2)
  else (deviceNotFound deviceId, σ)

/-- DeleteNetwork: DELETE one network subtree; 204 with no body on success. -/
def DeleteNetwork (h : Handler) (deviceId iface ifTypeQ : String) (σ : Sim) :
    HOut × Sim :=
  if getClient h deviceId then
    let ifType := if ifTypeQ = "" then "ethernet" else ifTypeQ
    match doCall .del ("interfaces " ++ ifType ++ " " ++ iface) σ with
    | (.error e, σ1) => (commError e, σ1)
    | (.ok out, σ1) =>
      if out.success then (⟨204, .null⟩, σ1)
      else (rejectedError out.err, σ1)
  else (deviceNotFound deviceId, σ)

/-- ListVRFs: GET vrfs; the store wraps the result in a name envelope which
is unwrapped when present. -/
def ListVRFs (h : Handler) (deviceId : String) (σ : Sim) : HOut × Sim :=
  if getClient h deviceId then
    match doCall .get "vrf name" σ with
    | (.error e, σ1) => (commError e, σ1)
    | (.ok out, σ1) =>
      if out.success then
        let rawMap := asObj out.data
        let vrfMap :=
          match getKey "name" rawMap with
          | some (.obj inner) => inner
          | _ => rawMap
        let result := vrfMap.map (fun p =>
          let cfg := asObj p.2
          { Name := p.1
            Table := asStr (getKey "table" cfg)
            Description := asStr (getKey "description" cfg) : VRFInfo })
        (⟨200, .arr (result.map VRFInfo.toJson)⟩, σ1)
      else (rejectedError out.err, σ1)
  else (deviceNotFound deviceId, σ)

/-- CreateVRF: POST vrfs.  The table set is the fatal anchor; the description
set is best-effort and its result is discarded. -/
def CreateVRF (h : Handler) (deviceId : String) (req : CreateVRFRequest)
    (σ : Sim) : HOut × Sim :=
  if getClient h deviceId then
    if req.Name = "" ∨ req.Table = "" then
      (⟨400, errBody "name and table are required"⟩, σ)
    else
      match doCall .set ("vrf name " ++ req.Name ++ " table " ++ req.Table) σ with
      | (.error e, σ1) => (commError e, σ1)
      | (.ok out, σ1) =>
        if out.success then
          let σ2 := setIfNonempty req.Description
            ("vrf name " ++ req.Name ++ " description " ++ req.Description) σ1
          (⟨201, VRFInfo.toJson ⟨req.Name, req.Table, req.Description⟩⟩, σ2)
        else (rejectedError out.err, σ1)
  else (deviceNotFound deviceId, σ)

/-- GetVRF: GET one vrf; logical-false renders 404. -/
def GetVRF (h : Handler) (deviceId vrfName : String) (σ : Sim) : HOut × Sim :=
  if getClient h deviceId then
    match doCall .get ("vrf name " ++ vrfName) σ with
    | (.error e, σ1) => (commError e, σ1)
    | (.ok out, σ1) =>
      if out.success then
        let cfg := asObj out.data
        (⟨200, VRFInfo.toJson ⟨vrfName, asStr (getKey "table" cfg),
          asStr (getKey "description" cfg)⟩⟩, σ1)
      else (⟨404, errBody "VRF not found"⟩, σ1)
  else (deviceNotFound deviceId, σ)

/-- UpdateVRF: PUT one vrf.  Both field sets are fatal here; the final
refetch surfaces only transport failures. -/
def UpdateVRF (h : Handler) (deviceId vrfName : String)
    (req : UpdateVRFRequest) (σ : Sim) : HOut × Sim :=
  if getClient h deviceId then
    let step1 : Option HOut × Sim :=
      if req.Table = "" then (none, σ)
      else
        match doCall .set ("vrf name " ++ vrfName ++ " table " ++ req.Table) σ with
        | (.error e, σ1) => (some (commError e), σ1)
        | (.ok out, σ1) =>
          if out.success then (none, σ1) else (some (rejectedError out.err), σ1)
    match step1 with
    | (some res, σ1) => (res, σ1)
    | (none, σ1) =>
      let step2 : Option HOut × Sim :=
        if req.Description = "" then (none, σ1)
        else
          match doCall .set ("vrf name " ++ vrfName ++ " description " ++
              req.Description) σ1 with
          | (.error e, σ2) => (some (commError e), σ2)
          | (.ok out, σ2) =>
            if out.success then (none, σ2)
            else (some (rejectedError out.err), σ2)
      match step2 with
      | (some res, σ2) => (res, σ2)
      | (none, σ2) =>
        match doCall .get ("vrf name " ++ vrfName) σ2 with
        | (.error e, σ3) => (commError e, σ3)
        | (.ok out, σ3) =>
          let cfg := asObj out.data
          (⟨200, VRFInfo.toJson ⟨vrfName, asStr (getKey "table" cfg),
            asStr (getKey "description" cfg)⟩⟩, σ3)
  else (deviceNotFound deviceId, σ)

/-- DeleteVRF: DELETE one vrf; 204 on success. -/
def DeleteVRF (h : Handler) (deviceId vrfName : String) (σ : Sim) :
    HOut × Sim :=
  if getClient h deviceId then
    match doCall .del ("vrf name " ++ vrfName) σ with
    | (.error e, σ1) => (commError e, σ1)
    | (.ok out, σ1) =>
      if out.success then (⟨204, .null⟩, σ1)
      else (rejectedError out.err, σ1)
  else (deviceNotFound deviceId, σ)

/-- ListVLANs: GET vlans.  Walks type, interface, then the vif map, skipping
interfaces without vifs and vif keys that are not integers. -/
def ListVLANs (h : Handler) (deviceId : String) (σ : Sim) : HOut × Sim :=
  if getClient h deviceId then
    match doCall .get "interfaces" σ with
    | (.error e, σ1) => (commError e, σ1)
    | (.ok out, σ1) =>
      if out.success then
        let result := (asObj out.data).flatMap (fun tP =>
          (asObj tP.2).flatMap (fun iP =>
            match getKey "vif" (asObj iP.2) with
            | some (.obj vifMap) =>
              vifMap.filterMap (fun vP =>
                match goAtoi vP.1 with
                | some vlanID =>
                  let vifCfg := asObj vP.2
                  some { Interface := iP.1
                         Typ := tP.1
                         VLANID := vlanID
                         Addresses := toStringSlice (getKey "address" vifCfg)
                         Description := asStr (getKey "description" vifCfg)
                         : VLANInfo }
                | none => none)
            | _ => []))
        (⟨200, .arr (result.map VLANInfo.toJson)⟩, σ1)
      else (rejectedError out.err, σ1)
  else (deviceNotFound deviceId, σ)

/-- CreateVLAN: POST vlans.  The vif set (with the address appended when one
is supplied) is the fatal anchor; the description set is best-effort. -/
def CreateVLAN (h : Handler) (deviceId : String) (req : CreateVLANRequest)
    (σ : Sim) : HOut × Sim :=
  if getClient h deviceId then
    if req.Interface = "" ∨ req.Typ = "" ∨ req.VLANID = 0 then
      (⟨400, errBody "interface, type, and vlan_id are required"⟩, σ)
    else
      let vifPath := "interfaces " ++ req.Typ ++ " " ++ req.Interface ++
        " vif " ++ toString req.VLANID
      let anchorPath :=
        if req.Address = "" then vifPath else vifPath ++ " address " ++ req.Address
      match doCall .set anchorPath σ with
      | (.error e, σ1) => (commError e, σ1)
      | (.ok out, σ1) =>
        if out.success then
          let σ2 := setIfNonempty req.Description
            (vifPath ++ " description " ++ req.Description) σ1
          let addrs := if req.Address = "" then [] else [req.Address]
          (⟨201, VLANInfo.toJson ⟨req.Interface, req.Typ, req.VLANID,
            addrs, req.Description⟩⟩, σ2)
        else (rejectedError out.err, σ1)
  else (deviceNotFound deviceId, σ)

/-- GetVLAN: GET one vlan; non-integer vlan_id renders 400, logical-false
renders 404, and the type query parameter defaults to ethernet. -/
def GetVLAN (h : Handler) (deviceId iface vlanIDStr ifTypeQ : String)
    (σ : Sim) : HOut × Sim :=
  if getClient h deviceId then
    match goAtoi vlanIDStr with
    | none => (⟨400, errBody "vlan_id must be an integer"⟩, σ)
    | some vlanID =>
      let ifType := if ifTypeQ = "" then "ethernet" else ifTypeQ
      match doCall .get ("interfaces " ++ ifType ++ " " ++ iface ++ " vif " ++
          toString vlanID) σ with
      | (.error e, σ1) => (commError e, σ1)
      | (.ok out, σ1) =>
        if out.success then
          let cfg := asObj out.data
          (⟨200, VLANInfo.toJson ⟨iface, ifType, vlanID,
            toStringSlice (getKey "address" cfg),
            asStr (getKey "description" cfg)⟩⟩, σ1)
        else (⟨404, errBody "VLAN not found"⟩, σ1)
  else (deviceNotFound deviceId, σ)

/-- UpdateVLAN: PUT one vlan.  When an address is supplied the old address
list is deleted with the result wholly discarded, then the new address set is
fatal; the description set is best-effort. -/
def UpdateVLAN (h : Handler) (deviceId iface vlanIDStr : String)
    (req : UpdateVLANRequest) (σ : Sim) : HOut × Sim :=
  if getClient h deviceId then
    match goAtoi vlanIDStr with
    | none => (⟨400, errBody "vlan_id must be an integer"⟩, σ)
    | some vlanID =>
      let reqType := if req.Typ = "" then "ethernet" else req.Typ
      let vifPath := "interfaces " ++ reqType ++ " " ++ iface ++ " vif " ++
        toString vlanID
      let step : Option HOut × Sim :=
        if req.Address = "" then (none, σ)
        else
          let σd := (doCall .del (vifPath ++ " address") σ).2
          match doCall .set (vifPath ++ " address " ++ req.Address) σd with
          | (.error e, σ1) => (some (commError e), σ1)
          | (.ok out, σ1) =>
            if out.success then (none, σ1)
            else (some (rejectedError out.err), σ1)
      match step with
      | (some res, σ1) => (res, σ1)
      | (none, σ1) =>
        let σ2 := setIfNonempty req.Description
          (vifPath ++ " description " ++ req.Description) σ1
        let addrs := if req.Address = "" then [] else [req.Address]
        (⟨200, VLANInfo.toJson ⟨iface, reqType, vlanID, addrs,
          req.Description⟩⟩, σ2)
  else (deviceNotFound deviceId, σ)

/-- DeleteVLAN: DELETE one vlan; 204 on success. -/
def DeleteVLAN (h : Handler) (deviceId iface vlanIDStr ifTypeQ : String)
    (σ : Sim) : HOut × Sim :=
  if getClient h deviceId then
    match goAtoi vlanIDStr with
    | none => (⟨400, errBody "vlan_id must be an integer"⟩, σ)
    | some vlanID =>
      let ifType := if ifTypeQ = "" then "ethernet" else ifTypeQ
      match doCall .del ("interfaces " ++ ifType ++ " " ++ iface ++ " vif " ++
          toString vlanID) σ with
      | (.error e, σ1) => (commError e, σ1)
      | (.ok out, σ1) =>
        if out.success then (⟨204, .null⟩, σ1)
        else (rejectedError out.err, σ1)
  else (deviceNotFound deviceId, σ)

/-- Base chain names and their paths (firewall ipv4 dir filter). -/
def baseChainPaths : List (String × String) :=
  [("forward", "firewall ipv4 forward filter"),
   ("input", "firewall ipv4 input filter"),
   ("output", "firewall ipv4 output filter")]

/-- Base-chain pass of ListPolicies: fetch each chain, skip transport
failures and logical failures, unwrap a filter envelope, and keep chains
with policy content. -/
def listPoliciesChains : List (String × String) → List PolicyInfo → Sim →
    List PolicyInfo × Sim
  | [], acc, σ => (acc, σ)
  | (nm, p) :: rest, acc, σ =>
    match doCall .get p σ with
    | (.error _, σ1) => listPoliciesChains rest acc σ1
    | (.ok out2, σ1) =>
      if out2.success then
        let rawMap := asObj out2.data
        let data :=
          match getKey "filter" rawMap with
          | some (.obj inner) => inner
          | _ => rawMap
        if hasPolicyContent data then
          listPoliciesChains rest (acc ++ [parsePolicyData nm (.obj data)]) σ1
        else listPoliciesChains rest acc σ1
      else listPoliciesChains rest acc σ1

/-- ListPolicies: GET firewall policies.  Named policies come first; a
logical failure whose payload mentions empty is skipped rather than an
error; base chains with content are appended.  The result slice is declared
nil in Go (var result) and never made, so a run that appends nothing encodes
the body as JSON null rather than an empty array. -/
def ListPolicies (h : Handler) (deviceId : String) (σ : Sim) : HOut × Sim :=
  if getClient h deviceId then
    match doCall .get "firewall ipv4 name" σ with
    | (.error e, σ1) => (commError e, σ1)
    | (.ok out, σ1) =>
      let named : Option (List PolicyInfo) :=
        if out.success then
          let rawMap := asObj out.data
          let policyMap :=
            match getKey "name" rawMap with
            | some (.obj inner) => inner
            | _ => rawMap
          some (policyMap.map (fun p => parsePolicyData p.1 p.2))
        else if strContainsGo (errMsg out.err) "empty" then some []
        else none
      match named with
      | none => (rejectedError out.err, σ1)
      | some acc =>
        let (result, σ2) := listPoliciesChains baseChainPaths acc σ1
        (⟨200, if result.isEmpty then JVal.null
               else .arr (result.map PolicyInfo.toJson)⟩, σ2)
  else (deviceNotFound deviceId, σ)

/-- CreatePolicy: POST firewall policies; the default-action set is the
fatal anchor, the description set best-effort. -/
def CreatePolicy (h : Handler) (deviceId : String) (req : CreatePolicyRequest)
    (σ : Sim) : HOut × Sim :=
  if getClient h deviceId then
    if req.Name = "" ∨ req.DefaultAction = "" then
      (⟨400, errBody "name and default_action are required"⟩, σ)
    else
      match doCall .set ("firewall ipv4 name " ++ req.Name ++
          " default-action " ++ req.DefaultAction) σ with
      | (.error e, σ1) => (commError e, σ1)
      | (.ok out, σ1) =>
        if out.success then
          let σ2 := setIfNonempty req.Description ("firewall ipv4 name " ++
            req.Name ++ " description " ++ req.Description) σ1
          (⟨201, PolicyInfo.toJson
            ⟨req.Name, req.DefaultAction, req.Description, false, []⟩⟩, σ2)
        else (rejectedError out.err, σ1)
  else (deviceNotFound deviceId, σ)

/-- GetPolicy: GET one policy (named or base chain); logical-false renders
404; unwraps a filter envelope, or a name envelope containing the policy. -/
def GetPolicy (h : Handler) (deviceId policy : String) (σ : Sim) :
    HOut × Sim :=
  if getClient h deviceId then
    let path :=
      match baseChainPaths.lookup policy with
      | some p => p
      | none => "firewall ipv4 name " ++ policy
    match doCall .get path σ with
    | (.error e, σ1) => (commError e, σ1)
    | (.ok out, σ1) =>
      if out.success then
        let data :=
          match out.data with
          | .obj rawMap =>
            match getKey "filter" rawMap with
            | some (.obj inner) => TreeNode.obj inner
            | _ =>
              match getKey "name" rawMap with
              | some (.obj inner) =>
                match getKey policy inner with
                | some (.obj policyData) => TreeNode.obj policyData
                | _ => out.data
              | _ => out.data
          | _ => out.data
        (⟨200, (parsePolicyData policy data).toJson⟩, σ1)
      else (⟨404, errBody "policy not found"⟩, σ1)
  else (deviceNotFound deviceId, σ)

/-- UpdatePolicy: PUT one policy.  The default-action set is fatal, the
description set best-effort, and the refetch surfaces only transport
failures. -/
def UpdatePolicy (h : Handler) (deviceId policy : String)
    (req : UpdatePolicyRequest) (σ : Sim) : HOut × Sim :=
  if getClient h deviceId then
    let step : Option HOut × Sim :=
      if req.DefaultAction = "" then (none, σ)
      else
        match doCall .set ("firewall ipv4 name " ++ policy ++
            " default-action " ++ req.DefaultAction) σ with
        | (.error e, σ1) => (some (commError e), σ1)
        | (.ok out, σ1) =>
          if out.success then (none, σ1)
          else (some (rejectedError out.err), σ1)
    match step with
    | (some res, σ1) => (res, σ1)
    | (none, σ1) =>
      let σ2 := setIfNonempty req.Description ("firewall ipv4 name " ++
        policy ++ " description " ++ req.Description) σ1
      match doCall .get ("firewall ipv4 name " ++ policy) σ2 with
      | (.error e, σ3) => (commError e, σ3)
      | (.ok out, σ3) => (⟨200, (parsePolicyData policy out.data).toJson⟩, σ3)
  else (deviceNotFound deviceId, σ)

/-- DeletePolicy: DELETE one policy; 204 on success. -/
def DeletePolicy (h : Handler) (deviceId policy : String) (σ : Sim) :
    HOut × Sim :=
  if getClient h deviceId then
    match doCall .del ("firewall ipv4 name " ++ policy) σ with
    | (.error e, σ1) => (commError e, σ1)
    | (.ok out, σ1) =>
      if out.success then (⟨204, .null⟩, σ1)
      else (rejectedError out.err, σ1)
  else (deviceNotFound deviceId, σ)

/-- AddRule: POST a rule under a policy.  The action set is the fatal
anchor; source, destination (address or group variants), and description are
best-effort.  The 201 body is a Go map, so its keys serialize sorted. -/
def AddRule (h : Handler) (deviceId policy : String) (req : AddRuleRequest)
    (σ : Sim) : HOut × Sim :=
  if getClient h deviceId then
    if req.RuleID = 0 ∨ req.Action = "" then
      (⟨400, errBody "rule_id and action are required"⟩, σ)
    else
      let rulePath := "firewall ipv4 name " ++ policy ++ " rule " ++
        toString req.RuleID
      match doCall .set (rulePath ++ " action " ++ req.Action) σ with
      | (.error e, σ1) => (commError e, σ1)
      | (.ok out, σ1) =>
        if out.success then
          let σ2 :=
            if req.Source ≠ "" then
              (doCall .set (rulePath ++ " source address " ++ req.Source) σ1).2
            else if req.SourceGroup ≠ "" then
              (doCall .set (rulePath ++ " source group address-group " ++
                req.SourceGroup) σ1).2
            else σ1
          let σ3 :=
            if req.Destination ≠ "" then
              (doCall .set (rulePath ++ " destination address " ++
                req.Destination) σ2).2
            else if req.DestinationGroup ≠ "" then
              (doCall .set (rulePath ++ " destination group address-group " ++
                req.DestinationGroup) σ2).2
            else σ2
          let σ4 := setIfNonempty req.Description
            (rulePath ++ " description " ++ req.Description) σ3
          (⟨201, .obj [("action", .s req.Action),
            ("description", .s req.Description),
            ("destination", .s req.Destination),
            ("destination_group", .s req.DestinationGroup),
            ("policy", .s policy),
            ("rule_id", .n req.RuleID),
            ("source", .s req.Source),
            ("source_group", .s req.SourceGroup)]⟩, σ4)
        else (rejectedError out.err, σ1)
  else (deviceNotFound deviceId, σ)

/-- DeleteRule: DELETE one rule of a policy; 400 on a non-integer rule_id,
204 on success. -/
def DeleteRule (h : Handler) (deviceId policy ruleIDStr : String) (σ : Sim) :
    HOut × Sim :=
  if getClient h deviceId then
    match goAtoi ruleIDStr with
    | none => (⟨400, errBody "rule_id must be an integer"⟩, σ)
    | some ruleID =>
      match doCall .del ("firewall ipv4 name " ++ policy ++ " rule " ++
          toString ruleID) σ with
      | (.error e, σ1) => (commError e, σ1)
      | (.ok out, σ1) =>
        if out.success then (⟨204, .null⟩, σ1)
        else (rejectedError out.err, σ1)
  else (deviceNotFound deviceId, σ)

/-- DisablePolicy: PUT disable; sets the disable sentinel path. -/
def DisablePolicy (h : Handler) (deviceId policy : String) (σ : Sim) :
    HOut × Sim :=
  if getClient h deviceId then
    match doCall .set ("firewall ipv4 name " ++ policy ++ " disable") σ with
    | (.error e, σ1) => (commError e, σ1)
    | (.ok out, σ1) =>
      if out.success then (⟨200, .obj [("disabled", .b true)]⟩, σ1)
      else (rejectedError out.err, σ1)
  else (deviceNotFound deviceId, σ)

/-- EnablePolicy: PUT enable; deletes the disable sentinel path rather than
setting it false. -/
def EnablePolicy (h : Handler) (deviceId policy : String) (σ : Sim) :
    HOut × Sim :=
  if getClient h deviceId then
    match doCall .del ("firewall ipv4 name " ++ policy ++ " disable") σ with
    | (.error e, σ1) => (commError e, σ1)
    | (.ok out, σ1) =>
      if out.success then (⟨200, .obj [("disabled", .b false)]⟩, σ1)
      else (rejectedError out.err, σ1)
  else (deviceNotFound deviceId, σ)

/-- DisableRule: PUT disable on one rule; sets the disable sentinel path. -/
def DisableRule (h : Handler) (deviceId policy ruleIDStr : String) (σ : Sim) :
    HOut × Sim :=
  if getClient h deviceId then
    match goAtoi ruleIDStr with
    | none => (⟨400, errBody "rule_id must be an integer"⟩, σ)
    | some ruleID =>
      match doCall .set ("firewall ipv4 name " ++ policy ++ " rule " ++
          toString ruleID ++ " disable") σ with
      | (.error e, σ1) => (commError e, σ1)
      | (.ok out, σ1) =>
        if out.success then (⟨200, .obj [("disabled", .b true)]⟩, σ1)
        else (rejectedError out.err, σ1)
  else (deviceNotFound deviceId, σ)

/-- Core of EnableRule after the rule identifier has been parsed: deletes
the disable sentinel path of the rule. -/
def EnableRuleCore (policy : String) (ruleID : Int) (σ : Sim) : HOut × Sim :=
  match doCall .del ("firewall ipv4 name " ++ policy ++ " rule " ++
      toString ruleID ++ " disable") σ with
  | (.error e, σ1) => (commError e, σ1)
  | (.ok out, σ1) =>
    if out.success then (⟨200, .obj [("disabled", .b false)]⟩, σ1)
    else (rejectedError out.err, σ1)

/-- EnableRule: PUT enable on one rule; deletes the disable sentinel path
rather than setting it false. -/
def EnableRule (h : Handler) (deviceId policy ruleIDStr : String) (σ : Sim) :
    HOut × Sim :=
  if getClient h deviceId then
    match goAtoi ruleIDStr with
    | none => (⟨400, errBody "rule_id must be an integer"⟩, σ)
    | some ruleID => EnableRuleCore policy ruleID σ
  else (deviceNotFound deviceId, σ)

/-- Go encoding/json rendering of AddressGroupInfo built by a normalizer
(addresses from toStringSlice, hence never nil). -/
def AddressGroupInfo.toJson (v : AddressGroupInfo) : JVal :=
  addressGroupJson v.Name v.Addresses false v.Description

/-- Recreate loop shared by CreateAddressGroup and UpdateAddressGroup: one
fatal set per member, in order, returning the error outcome of the first
failing set. -/
def agSetAddrs (group : String) (addrs : List String) (σ : Sim) :
    Option HOut × Sim :=
  match addrs with
  | [] => (none, σ)
  | a :: rest =>
    match doCall .set ("firewall group address-group " ++ group ++
        " address " ++ a) σ with
    | (.error e, σ1) => (some (commError e), σ1)
    | (.ok out, σ1) =>
      if out.success then agSetAddrs group rest σ1
      else (some (rejectedError out.err), σ1)

/-- ListAddressGroups: GET address groups.  A logical failure whose payload
mentions empty renders 200 with an empty array. -/
def ListAddressGroups (h : Handler) (deviceId : String) (σ : Sim) :
    HOut × Sim :=
  if getClient h deviceId then
    match doCall .get "firewall group address-group" σ with
    | (.error e, σ1) => (commError e, σ1)
    | (.ok out, σ1) =>
      if out.success then
        let rawMap := asObj out.data
        let groupMap :=
          match getKey "address-group" rawMap with
          | some (.obj inner) => inner
          | _ => rawMap
        let result := groupMap.map (fun p => parseAddressGroupData p.1 p.2)
        (⟨200, .arr (result.map AddressGroupInfo.toJson)⟩, σ1)
      else if strContainsGo (errMsg out.err) "empty" then
        (⟨200, .arr []⟩, σ1)
      else (rejectedError out.err, σ1)
  else (deviceNotFound deviceId, σ)

/-- CreateAddressGroup: POST address groups.  Each member set is fatal;
with no members a single set creates the empty group node; the description
set is best-effort.  The echoed addresses slice is the request slice, which
is nil when the body had no addresses key. -/
def CreateAddressGroup (h : Handler) (deviceId : String)
    (req : CreateAddressGroupRequest) (σ : Sim) : HOut × Sim :=
  if getClient h deviceId then
    if req.Name = "" then (⟨400, errBody "name is required"⟩, σ)
    else
      match agSetAddrs req.Name req.Addresses σ with
      | (some res, σ1) => (res, σ1)
      | (none, σ1) =>
        let step : Option HOut × Sim :=
          if req.Addresses.isEmpty then
            match doCall .set ("firewall group address-group " ++ req.Name) σ1 with
            | (.error e, σ2) => (some (commError e), σ2)
            | (.ok out, σ2) =>
              if out.success then (none, σ2)
              else (some (rejectedError out.err), σ2)
          else (none, σ1)
        match step with
        | (some res, σ2) => (res, σ2)
        | (none, σ2) =>
          let σ3 := setIfNonempty req.Description
            ("firewall group address-group " ++ req.Name ++ " description " ++
              req.Description) σ2
          (⟨201, addressGroupJson req.Name req.Addresses req.AddressesNil
            req.Description⟩, σ3)
  else (deviceNotFound deviceId, σ)

/-- GetAddressGroup: GET one address group; logical-false renders 404. -/
def GetAddressGroup (h : Handler) (deviceId group : String) (σ : Sim) :
    HOut × Sim :=
  if getClient h deviceId then
    match doCall .get ("firewall group address-group " ++ group) σ with
    | (.error e, σ1) => (commError e, σ1)
    | (.ok out, σ1) =>
      if out.success then
        (⟨200, (parseAddressGroupData group out.data).toJson⟩, σ1)
      else (⟨404, errBody "address group not found"⟩, σ1)
  else (deviceNotFound deviceId, σ)

/-- UpdateAddressGroup: PUT one address group; full replace.  The delete of
the whole address list comes first with its result wholly discarded, then
one fatal set per new member in order, then a best-effort description set. -/
def UpdateAddressGroup (h : Handler) (deviceId group : String)
    (req : UpdateAddressGroupRequest) (σ : Sim) : HOut × Sim :=
  if getClient h deviceId then
    let σd := (doCall .del ("firewall group address-group " ++ group ++
      " address") σ).2
    match agSetAddrs group req.Addresses σd with
    | (some res, σ1) => (res, σ1)
    | (none, σ1) =>
      let σ2 := setIfNonempty req.Description
        ("firewall group address-group " ++ group ++ " description " ++
          req.Description) σ1
      (⟨200, addressGroupJson group req.Addresses req.AddressesNil
        req.Description⟩, σ2)
  else (deviceNotFound deviceId, σ)

/-- DeleteAddressGroup: DELETE one address group; 204 on success. -/
def DeleteAddressGroup (h : Handler) (deviceId group : String) (σ : Sim) :
    HOut × Sim :=
  if getClient h deviceId then
    match doCall .del ("firewall group address-group " ++ group) σ with
    | (.error e, σ1) => (commError e, σ1)
    | (.ok out, σ1) =>
      if out.success then (⟨204, .null⟩, σ1)
      else (rejectedError out.err, σ1)
  else (deviceNotFound deviceId, σ)

/-- validNATType from handlers/nat.go. -/
def validNATType (natType : String) : Bool :=
  natType = "source" || natType = "destination"

/-- natRulePath from handlers/nat.go. -/
def natRulePath (natType : String) (ruleID : Int) : String :=
  "nat " ++ natType ++ " rule " ++ toString ruleID

/-- The 400 outcome for an invalid nat_type path variable. -/
def badNATType : HOut :=
  ⟨400, errBody "nat_type must be 'source' or 'destination'"⟩

/-- ListNATRules: GET NAT rules of one type.  A transport failure whose
message mentions unexpected status 400 (the store's response for a path that
was never configured) renders 200 with an empty array; any other transport
failure renders 502.  A logical failure whose payload mentions empty also
renders the empty array. -/
def ListNATRules (h : Handler) (deviceId natType : String) (σ : Sim) :
    HOut × Sim :=
  if getClient h deviceId then
    if validNATType natType then
      match doCall .get ("nat " ++ natType ++ " rule") σ with
      | (.error e, σ1) =>
        if strContainsGo e "unexpected status 400" then (⟨200, .arr []⟩, σ1)
        else (commError e, σ1)
      | (.ok out, σ1) =>
        if out.success then
          let rawMap := asObj out.data
          let ruleMap :=
            match getKey "rule" rawMap with
            | some (.obj inner) => inner
            | _ => rawMap
          let result := ruleMap.filterMap (fun p =>
            match goAtoi p.1 with
            | some ruleID => some (parseNATRuleData natType ruleID p.2)
            | none => none)
          (⟨200, .arr (result.map NATRuleInfo.toJson)⟩, σ1)
        else if strContainsGo (errMsg out.err) "empty" then
          (⟨200, .arr []⟩, σ1)
        else (rejectedError out.err, σ1)
    else (badNATType, σ)
  else (deviceNotFound deviceId, σ)

/-- Best-effort optional-field sets shared by create and update of NAT
rules, in source order. -/
def natOptionalSets (base : String) (description outboundIface inboundIface
    protocol sourceAddress sourcePort destAddress destPort
    translationPort : String) (σ : Sim) : Sim :=
  let σ1 := setIfNonempty translationPort
    (base ++ " translation port " ++ translationPort) σ
  let σ2 := setIfNonempty description (base ++ " description " ++ description) σ1
  let σ3 := setIfNonempty protocol (base ++ " protocol " ++ protocol) σ2
  let σ4 := setIfNonempty outboundIface
    (base ++ " outbound-interface name " ++ outboundIface) σ3
  let σ5 := setIfNonempty inboundIface
    (base ++ " inbound-interface name " ++ inboundIface) σ4
  let σ6 := setIfNonempty sourceAddress
    (base ++ " source address " ++ sourceAddress) σ5
  let σ7 := setIfNonempty sourcePort (base ++ " source port " ++ sourcePort) σ6
  let σ8 := setIfNonempty destAddress
    (base ++ " destination address " ++ destAddress) σ7
  setIfNonempty destPort (base ++ " destination port " ++ destPort) σ8

/-- CreateNATRule: POST NAT rules.  The translation-address set is the fatal
anchor; every other field set is best-effort. -/
def CreateNATRule (h : Handler) (deviceId natType : String)
    (req : CreateNATRuleRequest) (σ : Sim) : HOut × Sim :=
  if getClient h deviceId then
    if validNATType natType then
      if req.RuleID = 0 then (⟨400, errBody "rule_id is required"⟩, σ)
      else if req.TranslationAddr = "" then
        (⟨400, errBody "translation_address is required"⟩, σ)
      else
        let base := natRulePath natType req.RuleID
        match doCall .set (base ++ " translation address " ++
            req.TranslationAddr) σ with
        | (.error e, σ1) => (commError e, σ1)
        | (.ok out, σ1) =>
          if out.success then
            let σ2 := natOptionalSets base req.Description req.OutboundIface
              req.InboundIface req.Protocol req.SourceAddress req.SourcePort
              req.DestAddress req.DestPort req.TranslationPort σ1
            (⟨201, NATRuleInfo.toJson ⟨req.RuleID, natType, req.Description,
              req.OutboundIface, req.InboundIface, req.Protocol,
              req.SourceAddress, req.SourcePort, req.DestAddress, req.DestPort,
              req.TranslationAddr, req.TranslationPort, false⟩⟩, σ2)
          else (rejectedError out.err, σ1)
    else (badNATType, σ)
  else (deviceNotFound deviceId, σ)

/-- GetNATRule: GET one NAT rule; 400 on a non-integer rule_id; logical-false
renders 404. -/
def GetNATRule (h : Handler) (deviceId natType ruleIDStr : String) (σ : Sim) :
    HOut × Sim :=
  if getClient h deviceId then
    if validNATType natType then
      match goAtoi ruleIDStr with
      | none => (⟨400, errBody "rule_id must be an integer"⟩, σ)
      | some ruleID =>
        match doCall .get (natRulePath natType ruleID) σ with
        | (.error e, σ1) => (commError e, σ1)
        | (.ok out, σ1) =>
          if out.success then
            (⟨200, (parseNATRuleData natType ruleID out.data).toJson⟩, σ1)
          else (⟨404, errBody "NAT rule not found"⟩, σ1)
    else (badNATType, σ)
  else (deviceNotFound deviceId, σ)

/-- UpdateNATRule: PUT one NAT rule.  A supplied translation address is the
fatal set; remaining fields are best-effort; the closing refetch surfaces
only transport failures. -/
def UpdateNATRule (h : Handler) (deviceId natType ruleIDStr : String)
    (req : UpdateNATRuleRequest) (σ : Sim) : HOut × Sim :=
  if getClient h deviceId then
    if validNATType natType then
      match goAtoi ruleIDStr with
      | none => (⟨400, errBody "rule_id must be an integer"⟩, σ)
      | some ruleID =>
        let base := natRulePath natType ruleID
        let step : Option HOut × Sim :=
          if req.TranslationAddr = "" then (none, σ)
          else
            match doCall .set (base ++ " translation address " ++
                req.TranslationAddr) σ with
            | (.error e, σ1) => (some (commError e), σ1)
            | (.ok out, σ1) =>
              if out.success then (none, σ1)
              else (some (rejectedError out.err), σ1)
        match step with
        | (some res, σ1) => (res, σ1)
        | (none, σ1) =>
          let σ2 := natOptionalSets base req.Description req.OutboundIface
            req.InboundIface req.Protocol req.SourceAddress req.SourcePort
            req.DestAddress req.DestPort req.TranslationPort σ1
          match doCall .get base σ2 with
          | (.error e, σ3) => (commError e, σ3)
          | (.ok out, σ3) =>
            (⟨200, (parseNATRuleData natType ruleID out.data).toJson⟩, σ3)
    else (badNATType, σ)
  else (deviceNotFound deviceId, σ)

/-- DeleteNATRule: DELETE one NAT rule; 204 on success. -/
def DeleteNATRule (h : Handler) (deviceId natType ruleIDStr : String)
    (σ : Sim) : HOut × Sim :=
  if getClient h deviceId then
    if validNATType natType then
      match goAtoi ruleIDStr with
      | none => (⟨400, errBody "rule_id must be an integer"⟩, σ)
      | some ruleID =>
        match doCall .del (natRulePath natType ruleID) σ with
        | (.error e, σ1) => (commError e, σ1)
        | (.ok out, σ1) =>
          if out.success then (⟨204, .null⟩, σ1)
          else (rejectedError out.err, σ1)
    else (badNATType, σ)
  else (deviceNotFound deviceId, σ)

/-- routeBasePath from handlers/routes.go. -/
def routeBasePath (network : String) : String :=
  "protocols static route " ++ network

/-- ListRoutes: GET routes; the same transport-failure classification as
ListNATRules, unwrapping a route envelope. -/
def ListRoutes (h : Handler) (deviceId : String) (σ : Sim) : HOut × Sim :=
  if getClient h deviceId then
    match doCall .get "protocols static route" σ with
    | (.error e, σ1) =>
      if strContainsGo e "unexpected status 400" then (⟨200, .arr []⟩, σ1)
      else (commError e, σ1)
    | (.ok out, σ1) =>
      if out.success then
        let rawMap := asObj out.data
        let routeMap :=
          match getKey "route" rawMap with
          | some (.obj inner) => inner
          | _ => rawMap
        let result := routeMap.map (fun p => parseRouteData p.1 p.2)
        (⟨200, .arr (result.map RouteInfo.toJson)⟩, σ1)
      else if strContainsGo (errMsg out.err) "empty" then
        (⟨200, .arr []⟩, σ1)
      else (rejectedError out.err, σ1)
  else (deviceNotFound deviceId, σ)

/-- CreateRoute: POST routes.  The next-hop set is the fatal anchor;
distance (under the next-hop path) and description are best-effort. -/
def CreateRoute (h : Handler) (deviceId : String) (req : CreateRouteRequest)
    (σ : Sim) : HOut × Sim :=
  if getClient h deviceId then
    if req.Network = "" ∨ req.NextHop = "" then
      (⟨400, errBody "network and next_hop are required"⟩, σ)
    else
      let base := routeBasePath req.Network
      let nhPath := base ++ " next-hop " ++ req.NextHop
      match doCall .set nhPath σ with
      | (.error e, σ1) => (commError e, σ1)
      | (.ok out, σ1) =>
        if out.success then
          let σ2 := setIfNonempty req.Distance
            (nhPath ++ " distance " ++ req.Distance) σ1
          let σ3 := setIfNonempty req.Description
            (base ++ " description " ++ req.Description) σ2
          (⟨201, RouteInfo.toJson ⟨req.Network, req.NextHop, req.Distance,
            req.Description⟩⟩, σ3)
        else (rejectedError out.err, σ1)
  else (deviceNotFound deviceId, σ)

/-- GetRoute: GET one route addressed by prefix and mask path variables;
logical-false renders 404. -/
def GetRoute (h : Handler) (deviceId prefix0 mask : String) (σ : Sim) :
    HOut × Sim :=
  if getClient h deviceId then
    let network := prefix0 ++ "/" ++ mask
    match doCall .get (routeBasePath network) σ with
    | (.error e, σ1) => (commError e, σ1)
    | (.ok out, σ1) =>
      if out.success then
        (⟨200, (parseRouteData network out.data).toJson⟩, σ1)
      else (⟨404, errBody "route not found"⟩, σ1)
  else (deviceNotFound deviceId, σ)

/-- UpdateRoute: PUT one route.  A supplied next-hop set is fatal and
carries a nested best-effort distance set; the description set is
best-effort; the refetch surfaces only transport failures. -/
def UpdateRoute (h : Handler) (deviceId prefix0 mask : String)
    (req : UpdateRouteRequest) (σ : Sim) : HOut × Sim :=
  if getClient h deviceId then
    let network := prefix0 ++ "/" ++ mask
    let base := routeBasePath network
    let step : Option HOut × Sim :=
      if req.NextHop = "" then (none, σ)
      else
        let nhPath := base ++ " next-hop " ++ req.NextHop
        match doCall .set nhPath σ with
        | (.error e, σ1) => (some (commError e), σ1)
        | (.ok out, σ1) =>
          if out.success then
            (none, setIfNonempty req.Distance
              (nhPath ++ " distance " ++ req.Distance) σ1)
          else (some (rejectedError out.err), σ1)
    match step with
    | (some res, σ1) => (res, σ1)
    | (none, σ1) =>
      let σ2 := setIfNonempty req.Description
        (base ++ " description " ++ req.Description) σ1
      match doCall .get base σ2 with
      | (.error e, σ3) => (commError e, σ3)
      | (.ok out, σ3) => (⟨200, (parseRouteData network out.data).toJson⟩, σ3)
  else (deviceNotFound deviceId, σ)

/-- DeleteRoute: DELETE one route; 204 on success. -/
def DeleteRoute (h : Handler) (deviceId prefix0 mask : String) (σ : Sim) :
    HOut × Sim :=
  if getClient h deviceId then
    let network := prefix0 ++ "/" ++ mask
    match doCall .del (routeBasePath network) σ with
    | (.error e, σ1) => (commError e, σ1)
    | (.ok out, σ1) =>
      if out.success then (⟨204, .null⟩, σ1)
      else (rejectedError out.err, σ1)
  else (deviceNotFound deviceId, σ)

/-- dhcpBasePath from the DHCP handler. -/
def dhcpBasePath (name : String) : String :=
  "service dhcp-server shared-network-name " ++ name

/-- dhcpSubnetPath from the DHCP handler. -/
def dhcpSubnetPath (name subnet : String) : String :=
  dhcpBasePath name ++ " subnet " ++ subnet

/-- Name-server loop of setDHCPSubnetFields: each entry is trimmed and, when
non-empty, set best-effort. -/
def dhcpDNSLoop (subnetPath : String) : List String → Sim → Sim
  | [], σ => σ
  | ns :: rest, σ =>
    let t := ns.trim
    dhcpDNSLoop subnetPath rest
      (setIfNonempty t (subnetPath ++ " name-server " ++ t) σ)

/-- setDHCPSubnetFields: best-effort optional DHCP subnet fields applied
after the subnet node exists. -/
def setDHCPSubnetFields (subnetPath defaultRouter : String)
    (dnsServers : List String) (rangeStart rangeStop lease : String)
    (σ : Sim) : Sim :=
  let σ1 := setIfNonempty defaultRouter
    (subnetPath ++ " default-router " ++ defaultRouter) σ
  let σ2 := dhcpDNSLoop subnetPath dnsServers σ1
  let σ3 := setIfNonempty rangeStart
    (subnetPath ++ " range 0 start " ++ rangeStart) σ2
  let σ4 := setIfNonempty rangeStop
    (subnetPath ++ " range 0 stop " ++ rangeStop) σ3
  setIfNonempty lease (subnetPath ++ " lease " ++ lease) σ4

/-- ListDHCPServers: GET DHCP shared networks; the same transport-failure
classification as ListNATRules, unwrapping the shared-network-name
envelope. -/
def ListDHCPServers (h : Handler) (deviceId : String) (σ : Sim) :
    HOut × Sim :=
  if getClient h deviceId then
    match doCall .get "service dhcp-server shared-network-name" σ with
    | (.error e, σ1) =>
      if strContainsGo e "unexpected status 400" then (⟨200, .arr []⟩, σ1)
      else (commError e, σ1)
    | (.ok out, σ1) =>
      if out.success then
        let rawMap := asObj out.data
        let netMap :=
          match getKey "shared-network-name" rawMap with
          | some (.obj inner) => inner
          | _ => rawMap
        let result := netMap.map (fun p => parseDHCPServerData p.1 p.2)
        (⟨200, .arr (result.map DHCPServerInfo.toJson)⟩, σ1)
      else if strContainsGo (errMsg out.err) "empty" then
        (⟨200, .arr []⟩, σ1)
      else (rejectedError out.err, σ1)
  else (deviceNotFound deviceId, σ)

/-- CreateDHCPServer: POST DHCP servers.  The subnet-node set is the fatal
anchor; every optional field is best-effort. -/
def CreateDHCPServer (h : Handler) (deviceId : String)
    (req : CreateDHCPServerRequest) (σ : Sim) : HOut × Sim :=
  if getClient h deviceId then
    if req.Name = "" ∨ req.Subnet = "" then
      (⟨400, errBody "name and subnet are required"⟩, σ)
    else
      let subnetPath := dhcpSubnetPath req.Name req.Subnet
      match doCall .set subnetPath σ with
      | (.error e, σ1) => (commError e, σ1)
      | (.ok out, σ1) =>
        if out.success then
          let σ2 := setDHCPSubnetFields subnetPath req.DefaultRouter
            req.DNSServers req.RangeStart req.RangeStop req.Lease σ1
          (⟨201, DHCPServerInfo.toJson ⟨req.Name, [⟨req.Subnet,
            req.DefaultRouter, req.DNSServers, req.RangeStart, req.RangeStop,
            req.Lease⟩]⟩⟩, σ2)
        else (rejectedError out.err, σ1)
  else (deviceNotFound deviceId, σ)

/-- GetDHCPServer: GET one DHCP shared network; logical-false renders 404. -/
def GetDHCPServer (h : Handler) (deviceId name : String) (σ : Sim) :
    HOut × Sim :=
  if getClient h deviceId then
    match doCall .get (dhcpBasePath name) σ with
    | (.error e, σ1) => (commError e, σ1)
    | (.ok out, σ1) =>
      if out.success then
        (⟨200, (parseDHCPServerData name out.data).toJson⟩, σ1)
      else (⟨404, errBody "DHCP server not found"⟩, σ1)
  else (deviceNotFound deviceId, σ)

/-- UpdateDHCPServer: PUT one DHCP shared network.  The subnet-node set is
fatal, optional fields best-effort, and the refetch surfaces only transport
failures. -/
def UpdateDHCPServer (h : Handler) (deviceId name : String)
    (req : UpdateDHCPServerRequest) (σ : Sim) : HOut × Sim :=
  if getClient h deviceId then
    if req.Subnet = "" then (⟨400, errBody "subnet is required"⟩, σ)
    else
      let subnetPath := dhcpSubnetPath name req.Subnet
      match doCall .set subnetPath σ with
      | (.error e, σ1) => (commError e, σ1)
      | (.ok out, σ1) =>
        if out.success then
          let σ2 := setDHCPSubnetFields subnetPath req.DefaultRouter
            req.DNSServers req.RangeStart req.RangeStop req.Lease σ1
          match doCall .get (dhcpBasePath name) σ2 with
          | (.error e, σ3) => (commError e, σ3)
          | (.ok getOut, σ3) =>
            (⟨200, (parseDHCPServerData name getOut.data).toJson⟩, σ3)
        else (rejectedError out.err, σ1)
  else (deviceNotFound deviceId, σ)

/-- DeleteDHCPServer: DELETE one DHCP shared network; 204 on success. -/
def DeleteDHCPServer (h : Handler) (deviceId name : String) (σ : Sim) :
    HOut × Sim :=
  if getClient h deviceId then
    match doCall .del (dhcpBasePath name) σ with
    | (.error e, σ1) => (commError e, σ1)
    | (.ok out, σ1) =>
      if out.success then (⟨204, .null⟩, σ1)
      else (rejectedError out.err, σ1)
  else (deviceNotFound deviceId, σ)

/-- The single-device registry used to instantiate claims, matching the
repository's test fixture. -/
def H1 : Handler := ⟨["router1"]⟩

/-- A scripted remote logical rejection with the given data and payload. -/
def failRes (t : TreeNode) (e : Option String) : CallRes := .ok ⟨false, t, e⟩

/-- Scalar filter used to state the list case of toStringSlice. -/
def scalarString : TreeNode → Option String
  | .str s => some s
  | _ => none

/-- The member set call of the address-group recreate phase. -/
@[reducible] def agSetCall (group a : String) : Call :=
  ⟨.set, pathToArr ("firewall group address-group " ++ group ++ " address " ++ a)⟩

/-- The whole-list delete call of the address-group full replace. -/
@[reducible] def agDelCall (group : String) : Call :=
  ⟨.del, pathToArr ("firewall group address-group " ++ group ++ " address")⟩

/-- Keys of the rendered rules object of a policy body. -/
def policyRulesKeys (j : JVal) : List String :=
  match objLookup "rules" j with
  | some (.obj kvs) => kvs.map Prod.fst
  | _ => []

/-- Value of a digit-string key, used to state numeric order. -/
def natKey (s : String) : Nat := (digitsVal s.data).getD 0

/-- C1 evaluation: with no policies configured (success envelopes carrying
no data anywhere) ListPolicies answers 200 with body JSON null, not an empty
array, because its Go result slice is declared nil and never allocated; and
a DHCP subnet with no name-server renders without the dns_servers key at
all (omitempty), so that list field is absent rather than an empty array. -/
theorem listPolicies_zero_items_body_is_null :
    (ListPolicies H1 "router1" ⟨List.replicate 4 okSuccess, []⟩).1 =
      ⟨200, JVal.null⟩ ∧
    (GetDHCPServer H1 "router1" "net1"
      ⟨[.ok ⟨true, .obj [("subnet", .obj [("10.0.0.0/24", .obj [])])], none⟩],
       []⟩).1.body =
      .obj [("name", .s "net1"),
            ("subnets", .arr [.obj [("subnet", .s "10.0.0.0/24")]])] ∧
    objLookup "dns_servers" (.obj [("subnet", .s "10.0.0.0/24")]) = none :=
  ⟨rfl, rfl, rfl⟩

/-- C2 counterexample: a transport failure other than the remote 400
(connection refused) on a NAT List is NOT classified as empty-collection
success; the handler returns 502, not 200. -/
theorem listNATRules_refused_is_502 :
    (ListNATRules H1 "router1" "source"
      ⟨[.error "connection refused"], []⟩).1.status = 502 ∧ (502 : Nat) ≠ 200 := by
  exact ⟨rfl, by decide⟩

/-- C2 amended: on List of NAT rules and routes, only a transport failure
whose message contains the remote 400 marker is classified as
empty-collection success (200 with an empty array); every other transport
failure returns 502; a transport failure on Create always returns 502. -/
theorem list_transport_classification :
    (∀ e σr, (ListNATRules H1 "router1" "source" ⟨.error e :: σr, []⟩).1 =
      if strContainsGo e "unexpected status 400" then ⟨200, .arr []⟩
      else commError e) ∧
    (∀ e σr, (ListRoutes H1 "router1" ⟨.error e :: σr, []⟩).1 =
      if strContainsGo e "unexpected status 400" then ⟨200, .arr []⟩
      else commError e) ∧
    (∀ e σr req, req.RuleID = 9 → req.TranslationAddr = "198.51.100.1" →
      (CreateNATRule H1 "router1" "source" req ⟨.error e :: σr, []⟩).1 =
        commError e) ∧
    (∀ e σr req, req.Network = "10.0.0.0/24" → req.NextHop = "10.0.0.1" →
      (CreateRoute H1 "router1" req ⟨.error e :: σr, []⟩).1 = commError e) := by
  refine ⟨?_, ?_, ?_, ?_⟩
  · intro e σr
    by_cases hc : strContainsGo e "unexpected status 400" = true <;>
      simp [ListNATRules, getClient, H1, validNATType, doCall, hc, commError]
  · intro e σr
    by_cases hc : strContainsGo e "unexpected status 400" = true <;>
      simp [ListRoutes, getClient, H1, doCall, hc, commError]
  · intro e σr req h9 hta
    simp [CreateNATRule, getClient, H1, validNATType, h9, hta, doCall, commError]
  · intro e σr req hn hh
    simp [CreateRoute, getClient, H1, hn, hh, doCall, commError]

/-- C3: for every resource kind, a transport-success envelope with a false
logical flag renders 404 on the Get-by-identifier operation and 422 on the
fatal call of each mutation (Create, Update, Delete), whatever the error
payload and data tree. -/
theorem get_notfound_vs_mutation_rejected (t : TreeNode) (e : Option String) :
    (GetNetwork H1 "router1" "eth0" "" ⟨[failRes t e], []⟩).1.status = 404 ∧
    (GetVLAN H1 "router1" "eth0" "100" "" ⟨[failRes t e], []⟩).1.status = 404 ∧
    (GetVRF H1 "router1" "MGMT" ⟨[failRes t e], []⟩).1.status = 404 ∧
    (GetPolicy H1 "router1" "LAN-IN" ⟨[failRes t e], []⟩).1.status = 404 ∧
    (GetAddressGroup H1 "router1" "G1" ⟨[failRes t e], []⟩).1.status = 404 ∧
    (GetNATRule H1 "router1" "source" "10" ⟨[failRes t e], []⟩).1.status = 404 ∧
    (GetRoute H1 "router1" "10.0.0.0" "24" ⟨[failRes t e], []⟩).1.status = 404 ∧
    (GetDHCPServer H1 "router1" "net1" ⟨[failRes t e], []⟩).1.status = 404 ∧
    (CreateNetwork H1 "router1" ⟨"eth0", "ethernet", "10.0.0.1/24", ""⟩
      ⟨[failRes t e], []⟩).1.status = 422 ∧
    (CreateVLAN H1 "router1" ⟨"eth0", "ethernet", 100, "", ""⟩
      ⟨[failRes t e], []⟩).1.status = 422 ∧
    (CreateVRF H1 "router1" ⟨"MGMT", "100", ""⟩
      ⟨[failRes t e], []⟩).1.status = 422 ∧
    (CreatePolicy H1 "router1" ⟨"LAN-IN", "drop", ""⟩
      ⟨[failRes t e], []⟩).1.status = 422 ∧
    (AddRule H1 "router1" "LAN-IN" ⟨10, "accept", "", "", "", "", ""⟩
      ⟨[failRes t e], []⟩).1.status = 422 ∧
    (CreateAddressGroup H1 "router1" ⟨"G1", ["10.0.0.1"], false, ""⟩
      ⟨[failRes t e], []⟩).1.status = 422 ∧
    (CreateNATRule H1 "router1" "source"
      ⟨9, "", "", "", "", "", "", "", "", "198.51.100.1", ""⟩
      ⟨[failRes t e], []⟩).1.status = 422 ∧
    (CreateRoute H1 "router1" ⟨"10.0.0.0/24", "10.0.0.1", "", ""⟩
      ⟨[failRes t e], []⟩).1.status = 422 ∧
    (CreateDHCPServer H1 "router1" ⟨"net1", "10.0.0.0/24", "", [], "", "", ""⟩
      ⟨[failRes t e], []⟩).1.status = 422 ∧
    (UpdateNetwork H1 "router1" "eth0" ⟨"ethernet", "10.0.0.2/24", ""⟩
      ⟨[okSuccess, failRes t e], []⟩).1.status = 422 ∧
    (UpdateVLAN H1 "router1" "eth0" "100" ⟨"ethernet", "10.0.0.2/24", ""⟩
      ⟨[okSuccess, failRes t e], []⟩).1.status = 422 ∧
    (UpdateVRF H1 "router1" "MGMT" ⟨"101", ""⟩
      ⟨[failRes t e], []⟩).1.status = 422 ∧
    (UpdatePolicy H1 "router1" "LAN-IN" ⟨"accept", ""⟩
      ⟨[failRes t e], []⟩).1.status = 422 ∧
    (UpdateAddressGroup H1 "router1" "G1" ⟨["10.0.0.1"], false, ""⟩
      ⟨[okSuccess, failRes t e], []⟩).1.status = 422 ∧
    (UpdateNATRule H1 "router1" "source" "10"
      ⟨"", "", "", "", "", "", "", "", "198.51.100.1", ""⟩
      ⟨[failRes t e], []⟩).1.status = 422 ∧
    (UpdateRoute H1 "router1" "10.0.0.0" "24" ⟨"10.0.0.1", "", ""⟩
      ⟨[failRes t e], []⟩).1.status = 422 ∧
    (UpdateDHCPServer H1 "router1" "net1" ⟨"10.0.0.0/24", "", [], "", "", ""⟩
      ⟨[failRes t e], []⟩).1.status = 422 ∧
    (DeleteNetwork H1 "router1" "eth0" "" ⟨[failRes t e], []⟩).1.status = 422 ∧
    (DeleteVLAN H1 "router1" "eth0" "100" "" ⟨[failRes t e], []⟩).1.status = 422 ∧
    (DeleteVRF H1 "router1" "MGMT" ⟨[failRes t e], []⟩).1.status = 422 ∧
    (DeletePolicy H1 "router1" "LAN-IN" ⟨[failRes t e], []⟩).1.status = 422 ∧
    (DeleteRule H1 "router1" "LAN-IN" "10" ⟨[failRes t e], []⟩).1.status = 422 ∧
    (DeleteAddressGroup H1 "router1" "G1" ⟨[failRes t e], []⟩).1.status = 422 ∧
    (DeleteNATRule H1 "router1" "source" "10" ⟨[failRes t e], []⟩).1.status = 422 ∧
    (DeleteRoute H1 "router1" "10.0.0.0" "24" ⟨[failRes t e], []⟩).1.status = 422 ∧
    (DeleteDHCPServer H1 "router1" "net1" ⟨[failRes t e], []⟩).1.status = 422 :=
  ⟨rfl, rfl, rfl, rfl, rfl, rfl, rfl, rfl, rfl, rfl, rfl, rfl, rfl, rfl, rfl,
   rfl, rfl, rfl, rfl, rfl, rfl, rfl, rfl, rfl, rfl, rfl, rfl, rfl, rfl, rfl,
   rfl, rfl, rfl, rfl⟩

theorem strsOf_eq_filterMap (items : List TreeNode) :
    strsOf items = items.filterMap scalarString := by
  induction items with
  | nil => rfl
  | cons hd tl ih =>
    cases hd <;> simp [strsOf, scalarString, List.filterMap, ih]

/-- C4: toStringSlice maps a scalar to a singleton, a list to its scalar
elements in order with non-scalars dropped, and anything else, including a
missing value, to the empty sequence. -/
theorem toStringSlice_normalization :
    (∀ s, toStringSlice (some (.str s)) = [s]) ∧
    (∀ items, toStringSlice (some (.arr items)) = items.filterMap scalarString) ∧
    toStringSlice none = [] ∧
    toStringSlice (some .null) = [] ∧
    (∀ kvs, toStringSlice (some (.obj kvs)) = []) ∧
    (∀ n, toStringSlice (some (.num n)) = []) ∧
    (∀ b, toStringSlice (some (.bool b)) = []) := by
  refine ⟨fun s => rfl, fun items => strsOf_eq_filterMap items, rfl, rfl,
    fun kvs => rfl, fun n => rfl, fun b => rfl⟩

/-- Key presence in an association list coincides with membership of the key
in the key projection. -/
theorem getKey_isSome_iff (k : String) (l : List (String × TreeNode)) :
    (getKey k l).isSome = true ↔ k ∈ l.map Prod.fst := by
  induction l with
  | nil => simp [getKey]
  | cons hd tl ih =>
    by_cases hk : hd.1 = k
    · simp [getKey, hk]
    · simp [getKey, hk, ih, Ne.symm hk]

/-- C5: each normalizer reports disabled exactly when the node carries the
disable key, whatever its value; and both Enable operations issue exactly
one remote call, a delete of the disable path segment, never a set. -/
theorem disable_presence_and_enable_deletes :
    (∀ natType ruleID data,
      ((parseNATRuleData natType ruleID data).Disabled = true ↔
        "disable" ∈ (asObj data).map Prod.fst)) ∧
    (∀ name data,
      ((parsePolicyData name data).Disabled = true ↔
        "disable" ∈ (asObj data).map Prod.fst)) ∧
    (∀ ruleData,
      ((parseRuleEntry ruleData).Disabled = true ↔
        "disable" ∈ (asObj ruleData).map Prod.fst)) ∧
    (∀ policy s,
      (EnablePolicy H1 "router1" policy ⟨s, []⟩).2.sent.map Call.op = [.del]) ∧
    (∀ s, (EnablePolicy H1 "router1" "LAN-IN" ⟨s, []⟩).2.sent =
      [⟨.del, ["firewall", "ipv4", "name", "LAN-IN", "disable"]⟩]) ∧
    (∀ policy ruleID s,
      (EnableRuleCore policy ruleID ⟨s, []⟩).2.sent.map Call.op = [.del]) ∧
    (∀ s, (EnableRule H1 "router1" "LAN-IN" "10" ⟨s, []⟩).2.sent =
      [⟨.del, ["firewall", "ipv4", "name", "LAN-IN", "rule", "10", "disable"]⟩]) := by
  refine ⟨?_, ?_, ?_, ?_, ?_, ?_, ?_⟩
  · intro natType ruleID data
    simpa [parseNATRuleData, hasKey] using getKey_isSome_iff "disable" (asObj data)
  · intro name data
    simpa [parsePolicyData, hasKey] using getKey_isSome_iff "disable" (asObj data)
  · intro ruleData
    simpa [parseRuleEntry, hasKey] using getKey_isSome_iff "disable" (asObj ruleData)
  · intro policy s
    rcases s with _ | ⟨r | ⟨suc, dt, er⟩, rest⟩
    · rfl
    · rfl
    · cases suc <;> rfl
  · intro s
    rcases s with _ | ⟨r | ⟨suc, dt, er⟩, rest⟩
    · rfl
    · rfl
    · cases suc <;> rfl
  · intro policy ruleID s
    rcases s with _ | ⟨r | ⟨suc, dt, er⟩, rest⟩
    · rfl
    · rfl
    · cases suc <;> rfl
  · intro s
    rcases s with _ | ⟨r | ⟨suc, dt, er⟩, rest⟩
    · rfl
    · rfl
    · cases suc <;> rfl

/-- C6: when the anchor table set of Create-VRF succeeds and the optional
description set fails in any way (transport or logical, f arbitrary), the
handler still returns 201 with the description echoed in the body, and the
two sets are the only calls issued, so nothing is rolled back. -/
theorem createVRF_best_effort_description (name table desc : String)
    (hn : name ≠ "") (ht : table ≠ "") (hd : desc ≠ "") (t : TreeNode)
    (e : Option String) (f : CallRes) :
    (CreateVRF H1 "router1" ⟨name, table, desc⟩
      ⟨[.ok ⟨true, t, e⟩, f], []⟩).1.status = 201 ∧
    objLookup "description"
      (CreateVRF H1 "router1" ⟨name, table, desc⟩
        ⟨[.ok ⟨true, t, e⟩, f], []⟩).1.body = some (.s desc) ∧
    (CreateVRF H1 "router1" ⟨name, table, desc⟩
      ⟨[.ok ⟨true, t, e⟩, f], []⟩).2.sent.map Call.op = [.set, .set] := by
  refine ⟨?_, ?_, ?_⟩ <;>
    simp [CreateVRF, getClient, H1, hn, ht, hd, doCall, setIfNonempty,
      VRFInfo.toJson, strField, strFieldOpt, objLookup, errBody, List.lookup]

/-- C6 witness: the concrete instance with a transport failure on the
description set. -/
theorem createVRF_best_effort_description_witness :
    (CreateVRF H1 "router1" ⟨"MGMT", "100", "uplink"⟩
      ⟨[.ok ⟨true, .null, none⟩, .error "boom"], []⟩).1.status = 201 ∧
    objLookup "description"
      (CreateVRF H1 "router1" ⟨"MGMT", "100", "uplink"⟩
        ⟨[.ok ⟨true, .null, none⟩, .error "boom"], []⟩).1.body =
      some (.s "uplink") ∧
    (CreateVRF H1 "router1" ⟨"MGMT", "100", "uplink"⟩
      ⟨[.ok ⟨true, .null, none⟩, .error "boom"], []⟩).2.sent.map Call.op =
      [.set, .set] :=
  createVRF_best_effort_description "MGMT" "100" "uplink" (by decide)
    (by decide) (by decide) .null none (.error "boom")

/-- A recreate phase whose sets all succeed issues one set per member in
order and reports no error. -/
theorem agSetAddrs_ok (group : String) (addrs : List String)
    (t : List CallRes) (sent : List Call) :
    agSetAddrs group addrs ⟨List.replicate addrs.length okSuccess ++ t, sent⟩ =
      (none, ⟨t, sent ++ addrs.map (agSetCall group)⟩) := by
  induction addrs generalizing sent with
  | nil => simp [agSetAddrs]
  | cons a rest ih =>
    have step : agSetAddrs group (a :: rest)
        ⟨List.replicate (a :: rest).length okSuccess ++ t, sent⟩ =
        agSetAddrs group rest
        ⟨List.replicate rest.length okSuccess ++ t,
         sent ++ [agSetCall group a]⟩ := rfl
    rw [step, ih]
    simp

/-- A recreate phase whose first failure is a logical rejection stops at the
failing member and reports the 422 outcome. -/
theorem agSetAddrs_abort_rejected (group : String) (pre : List String)
    (bad : String) (post : List String) (tn : TreeNode) (e : Option String)
    (t : List CallRes) (sent : List Call) :
    agSetAddrs group (pre ++ bad :: post)
      ⟨List.replicate pre.length okSuccess ++ failRes tn e :: t, sent⟩ =
      (some (rejectedError e),
        ⟨t, sent ++ (pre ++ [bad]).map (agSetCall group)⟩) := by
  induction pre generalizing sent with
  | nil => simp [agSetAddrs, doCall, failRes, agSetCall]
  | cons a rest ih =>
    have step : agSetAddrs group ((a :: rest) ++ bad :: post)
        ⟨List.replicate (a :: rest).length okSuccess ++ failRes tn e :: t, sent⟩ =
        agSetAddrs group (rest ++ bad :: post)
        ⟨List.replicate rest.length okSuccess ++ failRes tn e :: t,
         sent ++ [agSetCall group a]⟩ := rfl
    rw [step, ih]
    simp

/-- A recreate phase whose first failure is a transport failure stops at the
failing member and reports the 502 outcome. -/
theorem agSetAddrs_abort_transport (group : String) (pre : List String)
    (bad : String) (post : List String) (em : String)
    (t : List CallRes) (sent : List Call) :
    agSetAddrs group (pre ++ bad :: post)
      ⟨List.replicate pre.length okSuccess ++ .error em :: t, sent⟩ =
      (some (commError em),
        ⟨t, sent ++ (pre ++ [bad]).map (agSetCall group)⟩) := by
  induction pre generalizing sent with
  | nil => simp [agSetAddrs, doCall, agSetCall]
  | cons a rest ih =>
    have step : agSetAddrs group ((a :: rest) ++ bad :: post)
        ⟨List.replicate (a :: rest).length okSuccess ++ .error em :: t, sent⟩ =
        agSetAddrs group (rest ++ bad :: post)
        ⟨List.replicate rest.length okSuccess ++ .error em :: t,
         sent ++ [agSetCall group a]⟩ := rfl
    rw [step, ih]
    simp

/-- C7: updating an address group is delete-all-then-recreate.  The outcome
is independent of the delete result (d against d2, so a failed delete is
ignored); on an all-success script the calls are exactly the whole-list
delete followed by one set per new member in the given order, with every
member echoed; the first failing set, logical or transport, ends the
sequence at that member and surfaces 422 or 502; the call lists contain no
get, so nothing is diffed against existing members. -/
theorem updateAddressGroup_full_replace :
    (∀ group req d d2 rest,
      UpdateAddressGroup H1 "router1" group req ⟨d :: rest, []⟩ =
        UpdateAddressGroup H1 "router1" group req ⟨d2 :: rest, []⟩) ∧
    (∀ group addrs d,
      UpdateAddressGroup H1 "router1" group ⟨addrs, false, ""⟩
        ⟨d :: List.replicate addrs.length okSuccess, []⟩ =
        (⟨200, addressGroupJson group addrs false ""⟩,
         ⟨[], agDelCall group :: addrs.map (agSetCall group)⟩)) ∧
    (∀ group pre bad post tn e d,
      UpdateAddressGroup H1 "router1" group ⟨pre ++ bad :: post, false, ""⟩
        ⟨d :: (List.replicate pre.length okSuccess ++ [failRes tn e]), []⟩ =
        (rejectedError e,
         ⟨[], agDelCall group :: (pre ++ [bad]).map (agSetCall group)⟩)) ∧
    (∀ group pre bad post em d,
      UpdateAddressGroup H1 "router1" group ⟨pre ++ bad :: post, false, ""⟩
        ⟨d :: (List.replicate pre.length okSuccess ++ [.error em]), []⟩ =
        (commError em,
         ⟨[], agDelCall group :: (pre ++ [bad]).map (agSetCall group)⟩)) := by
  refine ⟨fun group req d d2 rest => rfl, ?_, ?_, ?_⟩
  · intro group addrs d
    have h := agSetAddrs_ok group addrs [] [agDelCall group]
    simp at h
    simp [UpdateAddressGroup, getClient, H1, doCall, setIfNonempty, h]
  · intro group pre bad post tn e d
    have h := agSetAddrs_abort_rejected group pre bad post tn e []
      [agDelCall group]
    simp at h
    simp [UpdateAddressGroup, getClient, H1, doCall, setIfNonempty, h]
  · intro group pre bad post em d
    have h := agSetAddrs_abort_transport group pre bad post em []
      [agDelCall group]
    simp at h
    simp [UpdateAddressGroup, getClient, H1, doCall, setIfNonempty, h]

/-- charsLe is total. -/
theorem charsLe_total : ∀ a b : List Char, charsLe a b = true ∨ charsLe b a = true
  | [], _ => Or.inl rfl
  | _ :: _, [] => Or.inr rfl
  | x :: xs, y :: ys => by
    by_cases h1 : x.toNat < y.toNat
    · left; simp [charsLe, h1]
    · by_cases h2 : y.toNat < x.toNat
      · right; simp [charsLe, h2]
      · rcases charsLe_total xs ys with h | h
        · left; simp [charsLe, h1, h2, h]
        · right; simp [charsLe, h1, h2, h]

/-- charsLe is transitive. -/
theorem charsLe_trans : ∀ a b c : List Char,
    charsLe a b = true → charsLe b c = true → charsLe a c = true
  | [], _, _, _, _ => rfl
  | _ :: _, [], _, hab, _ => by simp [charsLe] at hab
  | _ :: _, _ :: _, [], _, hbc => by simp [charsLe] at hbc
  | x :: xs, y :: ys, z :: zs, hab, hbc => by
    simp only [charsLe] at hab hbc ⊢
    by_cases h1 : x.toNat < y.toNat
    · by_cases h2 : y.toNat < z.toNat
      · simp [Nat.lt_trans h1 h2]
      · by_cases h3 : z.toNat < y.toNat
        · simp [h2, h3] at hbc
        · have hxz : x.toNat < z.toNat := by omega
          simp [hxz]
    · by_cases h4 : y.toNat < x.toNat
      · simp [h1, h4] at hab
      · by_cases h2 : y.toNat < z.toNat
        · have hxz : x.toNat < z.toNat := by omega
          simp [hxz]
        · by_cases h3 : z.toNat < y.toNat
          · simp [h2, h3] at hbc
          · have hxz1 : ¬ x.toNat < z.toNat := by omega
            have hxz2 : ¬ z.toNat < x.toNat := by omega
            simp [h1, h4, h2, h3, hxz1, hxz2] at hab hbc ⊢
            exact charsLe_trans xs ys zs hab hbc

/-- The rendered rules keys of any policy body, read off its serialized
form. -/
theorem policyRulesKeys_toJson (p : PolicyInfo) :
    policyRulesKeys p.toJson =
      if p.Rules.isEmpty then []
      else (sortPairs (p.Rules.map (fun q => (q.1, q.2.toJson)))).map Prod.fst := by
  unfold PolicyInfo.toJson policyRulesKeys objLookup
  by_cases h1 : p.Description = "" <;> by_cases h2 : p.Disabled <;>
    by_cases h3 : p.Rules.isEmpty <;>
    simp [strField, strFieldOpt, boolFieldOpt, h1, h2, h3, List.lookup]

/-- C8 amended: the rule keys of a rendered policy are presented in Go
byte-lexicographic ascending order, and for equal-length identifiers such
as 30, 10, 20 that order coincides with ascending numeric order. -/
theorem policy_rules_rendered_lexicographic :
    (∀ name data, List.Sorted (fun a b : String => goStrLe a b = true)
      (policyRulesKeys ((parsePolicyData name data).toJson))) ∧
    policyRulesKeys ((parsePolicyData "LAN-IN"
      (.obj [("rule", .obj [("30", .obj []), ("10", .obj []),
        ("20", .obj [])])])).toJson) = ["10", "20", "30"] := by
  constructor
  · intro name data
    rw [policyRulesKeys_toJson]
    by_cases h : (parsePolicyData name data).Rules.isEmpty
    · simp [h, List.Sorted]
    · simp only [h, Bool.false_eq_true, if_false, List.Sorted, List.pairwise_map]
      haveI : IsTotal (String × JVal) pairLe :=
        ⟨fun p q => charsLe_total p.1.data q.1.data⟩
      haveI : IsTrans (String × JVal) pairLe :=
        ⟨fun p q r => charsLe_trans p.1.data q.1.data r.1.data⟩
      exact List.sorted_insertionSort pairLe _
  · rfl

/-- C8 counterexample: with rule identifiers 9, 10, 100 the store map is
presented as 10, 100, 9 (byte-lexicographic), which is not ascending
numeric order, refuting the claim for identifiers of different digit
lengths. -/
theorem getPolicy_rule_order_not_numeric :
    policyRulesKeys ((GetPolicy H1 "router1" "LAN-IN"
      ⟨[.ok ⟨true, .obj [("rule", .obj [("9", .obj []), ("10", .obj []),
        ("100", .obj [])])], none⟩], []⟩).1.body) = ["10", "100", "9"] ∧
    ¬ List.Pairwise (fun a b => natKey a ≤ natKey b) ["10", "100", "9"] := by
  constructor
  · rfl
  · decide

/-- C9: a whitespace-bearing field value raises no client-side error (the
create succeeds for every description, 201), and in the path sent to the
store the value slot directly after the description segment holds only the
first whitespace-delimited token, the remaining tokens spilling into further
segments. -/
theorem path_whitespace_truncation :
    (∀ d, (CreateVRF H1 "router1" ⟨"MGMT", "100", d⟩
      ⟨[okSuccess, okSuccess], []⟩).1.status = 201) ∧
    (CreateVRF H1 "router1" ⟨"MGMT", "100", "long desc here"⟩
      ⟨[okSuccess, okSuccess], []⟩).2.sent =
      [⟨.set, ["vrf", "name", "MGMT", "table", "100"]⟩,
       ⟨.set, ["vrf", "name", "MGMT", "description", "long", "desc", "here"]⟩] ∧
    ["vrf", "name", "MGMT", "description", "long", "desc",
      "here"][4]? = some "long" ∧
    goFields "long desc here" = ["long", "desc", "here"] ∧
    "long" ≠ "long desc here" := by
  refine ⟨?_, by rfl, by rfl, by rfl, by decide⟩
  intro d
  by_cases hd : d = "" <;>
    simp [CreateVRF, getClient, H1, doCall, setIfNonempty, okSuccess, hd]

/-- C10: with a device id absent from the registry, every handler of every
resource returns the 404 device-not-found error body and leaves the
simulation state untouched: no remote call is issued. -/
theorem unknown_device_404_no_calls (h : Handler) (id : String)
    (hc : h.devices.contains id = false) :
    (∀ σ, ListNetworks h id σ = (deviceNotFound id, σ)) ∧
    (∀ req σ, CreateNetwork h id req σ = (deviceNotFound id, σ)) ∧
    (∀ a b σ, GetNetwork h id a b σ = (deviceNotFound id, σ)) ∧
    (∀ a req σ, UpdateNetwork h id a req σ = (deviceNotFound id, σ)) ∧
    (∀ a b σ, DeleteNetwork h id a b σ = (deviceNotFound id, σ)) ∧
    (∀ σ, ListVRFs h id σ = (deviceNotFound id, σ)) ∧
    (∀ req σ, CreateVRF h id req σ = (deviceNotFound id, σ)) ∧
    (∀ a σ, GetVRF h id a σ = (deviceNotFound id, σ)) ∧
    (∀ a req σ, UpdateVRF h id a req σ = (deviceNotFound id, σ)) ∧
    (∀ a σ, DeleteVRF h id a σ = (deviceNotFound id, σ)) ∧
    (∀ σ, ListVLANs h id σ = (deviceNotFound id, σ)) ∧
    (∀ req σ, CreateVLAN h id req σ = (deviceNotFound id, σ)) ∧
    (∀ a b c σ, GetVLAN h id a b c σ = (deviceNotFound id, σ)) ∧
    (∀ a b req σ, UpdateVLAN h id a b req σ = (deviceNotFound id, σ)) ∧
    (∀ a b c σ, DeleteVLAN h id a b c σ = (deviceNotFound id, σ)) ∧
    (∀ σ, ListPolicies h id σ = (deviceNotFound id, σ)) ∧
    (∀ req σ, CreatePolicy h id req σ = (deviceNotFound id, σ)) ∧
    (∀ a σ, GetPolicy h id a σ = (deviceNotFound id, σ)) ∧
    (∀ a req σ, UpdatePolicy h id a req σ = (deviceNotFound id, σ)) ∧
    (∀ a σ, DeletePolicy h id a σ = (deviceNotFound id, σ)) ∧
    (∀ a req σ, AddRule h id a req σ = (deviceNotFound id, σ)) ∧
    (∀ a b σ, DeleteRule h id a b σ = (deviceNotFound id, σ)) ∧
    (∀ a σ, DisablePolicy h id a σ = (deviceNotFound id, σ)) ∧
    (∀ a σ, EnablePolicy h id a σ = (deviceNotFound id, σ)) ∧
    (∀ a b σ, DisableRule h id a b σ = (deviceNotFound id, σ)) ∧
    (∀ a b σ, EnableRule h id a b σ = (deviceNotFound id, σ)) ∧
    (∀ σ, ListAddressGroups h id σ = (deviceNotFound id, σ)) ∧
    (∀ req σ, CreateAddressGroup h id req σ = (deviceNotFound id, σ)) ∧
    (∀ a σ, GetAddressGroup h id a σ = (deviceNotFound id, σ)) ∧
    (∀ a req σ, UpdateAddressGroup h id a req σ = (deviceNotFound id, σ)) ∧
    (∀ a σ, DeleteAddressGroup h id a σ = (deviceNotFound id, σ)) ∧
    (∀ a σ, ListNATRules h id a σ = (deviceNotFound id, σ)) ∧
    (∀ a req σ, CreateNATRule h id a req σ = (deviceNotFound id, σ)) ∧
    (∀ a b σ, GetNATRule h id a b σ = (deviceNotFound id, σ)) ∧
    (∀ a b req σ, UpdateNATRule h id a b req σ = (deviceNotFound id, σ)) ∧
    (∀ a b σ, DeleteNATRule h id a b σ = (deviceNotFound id, σ)) ∧
    (∀ σ, ListRoutes h id σ = (deviceNotFound id, σ)) ∧
    (∀ req σ, CreateRoute h id req σ = (deviceNotFound id, σ)) ∧
    (∀ a b σ, GetRoute h id a b σ = (deviceNotFound id, σ)) ∧
    (∀ a b req σ, UpdateRoute h id a b req σ = (deviceNotFound id, σ)) ∧
    (∀ a b σ, DeleteRoute h id a b σ = (deviceNotFound id, σ)) ∧
    (∀ σ, ListDHCPServers h id σ = (deviceNotFound id, σ)) ∧
    (∀ req σ, CreateDHCPServer h id req σ = (deviceNotFound id, σ)) ∧
    (∀ a σ, GetDHCPServer h id a σ = (deviceNotFound id, σ)) ∧
    (∀ a req σ, UpdateDHCPServer h id a req σ = (deviceNotFound id, σ)) ∧
    (∀ a σ, DeleteDHCPServer h id a σ = (deviceNotFound id, σ)) := by
  refine ⟨?_, ?_, ?_, ?_, ?_, ?_, ?_, ?_, ?_, ?_, ?_, ?_, ?_, ?_, ?_, ?_, ?_,
    ?_, ?_, ?_, ?_, ?_, ?_, ?_, ?_, ?_, ?_, ?_, ?_, ?_, ?_, ?_, ?_, ?_, ?_,
    ?_, ?_, ?_, ?_, ?_, ?_, ?_, ?_, ?_, ?_, ?_⟩ <;> intros <;>
    simp only [ListNetworks, CreateNetwork, GetNetwork, UpdateNetwork,
      DeleteNetwork, ListVRFs, CreateVRF, GetVRF, UpdateVRF, DeleteVRF,
      ListVLANs, CreateVLAN, GetVLAN, UpdateVLAN, DeleteVLAN, ListPolicies,
      CreatePolicy, GetPolicy, UpdatePolicy, DeletePolicy, AddRule,
      DeleteRule, DisablePolicy, EnablePolicy, DisableRule, EnableRule,
      ListAddressGroups, CreateAddressGroup, GetAddressGroup,
      UpdateAddressGroup, DeleteAddressGroup, ListNATRules, CreateNATRule,
      GetNATRule, UpdateNATRule, DeleteNATRule, ListRoutes, CreateRoute,
      GetRoute, UpdateRoute, DeleteRoute, ListDHCPServers, CreateDHCPServer,
      GetDHCPServer, UpdateDHCPServer, DeleteDHCPServer, getClient, hc,
      Bool.false_eq_true, if_false]

/-- C10 witness: the repository's single-device registry with an unknown
device id on a representative operation. -/
theorem unknown_device_404_no_calls_witness :
    H1.devices.contains "ghost" = false ∧
    ListNetworks H1 "ghost" ⟨[], []⟩ = (deviceNotFound "ghost", ⟨[], []⟩) :=
  ⟨by decide, (unknown_device_404_no_calls H1 "ghost" (by decide)).1 ⟨[], []⟩⟩
